import Mathlib

/-!
# Connection and catalog-client caches of the BigQuery datasource

A shallow embedding of `pkg/bigquery/datasource.go` and `pkg/bigquery/http_client.go`:
the connection key, the two caches, the transport registry, `Connect`, `getApi`,
`Tables`, `Columns`, `ValidateQuery` and `NewDatasource`, followed by the properties
proved about them.
-/

namespace BigQuery

/-! ## `fmt.Sprintf("%d", id)` -/

/-- The character of one decimal digit. -/
def digitChar (d : Nat) : Char := Char.ofNat (48 + d)

/-- Decimal digits of `n`, most significant first, pushed in front of `acc`. -/
def natDigits : Nat → Nat → List Char → List Char
  | 0, _, acc => acc
  | fuel + 1, n, acc =>
    if n / 10 = 0 then digitChar (n % 10) :: acc
    else natDigits fuel (n / 10) (digitChar (n % 10) :: acc)

/-- The verb `%d` applied to a natural number. -/
def formatNat (n : Nat) : List Char := natDigits (n + 1) n []

/-- The verb `%d` applied to an `int64` (any integer): a minus sign, then the digits. -/
def formatInt : Int → List Char
  | Int.ofNat n => formatNat n
  | Int.negSucc n => '-' :: formatNat (n + 1)

/-- The key of both caches: `fmt.Sprintf("%d/%s:%s", id, location, project)`
(`Connect`, line 118, and `getApi`, line 369). -/
def connectionKey (id : Int) (location project : String) : String :=
  String.mk (formatInt id ++ '/' :: (location.data ++ ':' :: project.data))

/-- The key of the transport registry: `fmt.Sprintf("%d", id)`. -/
def instanceKey (id : Int) : String := String.mk (formatInt id)

/-! ### Reading a decimal rendering back -/

/-- Value of a digit string read after the prefix value `a`. -/
def digitsValue (a : Nat) (l : List Char) : Nat :=
  l.foldl (fun v c => 10 * v + (c.toNat - 48)) a

/-- Reads back what `formatInt` writes. -/
def readInt : List Char → Int
  | [] => 0
  | c :: cs => if c = '-' then - (digitsValue 0 cs : Int) else (digitsValue 0 (c :: cs) : Int)

/-! ## Values handed around by the datasource -/

/-- A Go `error` value: `errors.New` and errors of collaborators (by their text),
`errors.WithMessage`, `fmt.Errorf` with `%w`, and the `*strconv.NumError` of a failed parse. -/
inductive GoError where
  | new (msg : String)
  | withMessage (cause : GoError) (msg : String)
  | errorf (msg : String) (cause : GoError)
  | numError (fn num err : String)
  deriving DecidableEq, Repr

/-- Identity of a `*bq.Client`, the session the factory hands out. -/
abbrev Session := Nat

/-- Identity of a `*sql.DB`, the handle `Connect` returns. -/
abbrev Handle := Nat

/-- Identity of a `*http.Client`. -/
abbrev HttpClient := Nat

/-- The `*driver.Driver` behind a handle: the client it was opened on and its closed flag. -/
structure Driver where
  client : Session
  closed : Bool
  deriving DecidableEq, Repr

/-- The `conn` struct (lines 38-41). -/
structure conn where
  db : Handle
  driver : Driver
  deriving DecidableEq, Repr

/-- The `api.API` catalog client: the wrapped client and the location set on it. -/
structure API where
  Client : Session
  location : String
  deriving DecidableEq, Repr

/-- The fields of `backend.DataSourceInstanceSettings` the source reads. -/
structure Config where
  ID : Int
  JSONData : String
  deriving DecidableEq, Repr

/-- The fields of `types.BigQuerySettings` the source reads. -/
structure BigQuerySettings where
  URL : String
  DefaultProject : String
  ProcessingLocation : String
  deriving DecidableEq, Repr

/-- The fields of `types.ConnectionSettings` the source reads. -/
structure ConnectionSettings where
  Project : String
  Location : String
  Dataset : String
  Table : String
  deriving DecidableEq, Repr

/-- The `ConnectionArgs` struct (lines 53-58). -/
structure ConnectionArgs where
  Dataset : String
  Table : String
  Location : String
  Headers : List (String × List String)
  deriving DecidableEq, Repr

/-- The fields of `httpclient.Options` the source touches. -/
structure HttpOptions where
  ForwardHTTPHeaders : Bool
  Header : List (String × String)
  deriving DecidableEq, Repr

/-- The fields of `api.ValidateQueryResponse` the source sets. -/
structure ValidateQueryResponse where
  IsValid : Bool
  IsError : Bool
  Error : String
  deriving DecidableEq, Repr

/-- The `TablesArgs` struct (lines 221-225). -/
structure TablesArgs where
  Project : String
  Location : String
  Dataset : String
  deriving DecidableEq, Repr

/-- The `TableSchemaArgs` struct (lines 351-356). -/
structure TableSchemaArgs where
  Project : String
  Location : String
  Dataset : String
  Table : String
  deriving DecidableEq, Repr

/-- The `ValidateQueryArgs` struct (lines 324-329); the time range is never read. -/
structure ValidateQueryArgs where
  Project : String
  Location : String
  Query : String
  deriving DecidableEq, Repr

deriving instance DecidableEq for Except

/-! ## Maps: `sync.Map` and `map[string]*http.Client` -/

/-- The `Load` of a map: the value under the key, if any. -/
def Load {V : Type} (k : String) : List (String × V) → Option V
  | [] => none
  | (k', v) :: m => if k' = k then some v else Load k m

/-- The `Store` of a map: the key holds the new value and nothing else. -/
def Store {V : Type} (k : String) (v : V) (m : List (String × V)) : List (String × V) :=
  (k, v) :: m.filter (fun e => decide (e.1 ≠ k))

/-- The map type `sqlds.Options`: an absent key reads as the empty string. -/
abbrev Options := List (String × String)

/-- Indexing `options[key]`. -/
def Options.get (options : Options) (key : String) : String :=
  (Load key options).getD ""

/-! ## Collaborators outside the two source files -/

/-- Outcomes of the code the datasource calls but does not contain. The calls that
allocate (`httpclient.New`, `driver.Open`) are asked by the number of earlier calls. -/
structure Env where
  /-- The helper `loadSettings(&config)`. -/
  loadSettings : Config → Except GoError BigQuerySettings
  /-- The call `json.Unmarshal(queryArgs, args)` on a zero `ConnectionArgs`; an error by its text. -/
  jsonUnmarshal : String → Except String ConnectionArgs
  /-- The helper `getConnectionSettings(settings, args, isQueryArgsSet)`. -/
  getConnectionSettings : BigQuerySettings → ConnectionArgs → Bool → ConnectionSettings
  /-- The method `config.HTTPClientOptions(ctx)`. -/
  HTTPClientOptions : Config → Except GoError HttpOptions
  /-- The error, if any, of the n-th `httpclient.New(opts)`. -/
  httpclientNew : Nat → HttpOptions → Option GoError
  /-- The error, if any, of the n-th `driver.Open(connectionSettings, client)`. -/
  driverOpenError : Nat → ConnectionSettings → Session → Option GoError
  /-- The call `bq.NewClient(ctx, project, WithHTTPClient(client), WithEndpoint(url))`. -/
  bqNewClient : String → HttpClient → String → Except GoError Session
  /-- The call `sqlds.Interpolate(s, &query)`; an error by its text. -/
  Interpolate : String → Except String String
  /-- The method `apiClient.ListTables(ctx, dataset)`. -/
  ListTables : API → String → Except GoError (List String)
  /-- The method `apiClient.ListColumns(ctx, dataset, table, isOrderable)`. -/
  ListColumns : API → String → String → Bool → Except GoError (List String)
  /-- The method `apiClient.ValidateQuery(ctx, query)`. -/
  ValidateQuery : API → String → ValidateQueryResponse

/-- The type `bqServiceFactory` (line 43): asked with the number of earlier invocations,
the project, the transport client and the endpoint of its two options. -/
abbrev bqServiceFactory := Nat → String → HttpClient → String → Except GoError Session

/-- The `BigQueryDatasource` struct (lines 45-51). -/
structure BigQueryDatasource where
  connections : List (String × conn)
  apiClients : List (String × API)
  bqFactory : bqServiceFactory
  httpClientService : List (String × HttpClient)
  url : String

/-- A datasource in its process: the struct, the counters of factory invocations, of
transport clients requested and of `driver.Open` calls, and the record of every
`(key, session)` a `Store` on either cache has written. -/
structure World where
  ds : BigQueryDatasource
  factoryCalls : Nat
  httpClients : Nat
  opened : Nat
  stored : List (String × Session)

/-- The assignment `s.url = url`. -/
def World.setUrl (w : World) (url : String) : World :=
  { w with ds := { w.ds with url := url } }

/-- The call `s.connections.Store(key, c)`. -/
def World.storeConnection (w : World) (key : String) (c : conn) : World :=
  { w with ds := { w.ds with connections := Store key c w.ds.connections },
           stored := (key, c.driver.client) :: w.stored }

/-- The call `s.apiClients.Store(key, a)`. -/
def World.storeApiClient (w : World) (key : String) (a : API) : World :=
  { w with ds := { w.ds with apiClients := Store key a w.ds.apiClients },
           stored := (key, a.Client) :: w.stored }

/-- The assignment `s.httpClientService[key] = client`. -/
def World.setHttpClient (w : World) (key : String) (client : HttpClient) : World :=
  { w with ds := { w.ds with httpClientService := Store key client w.ds.httpClientService } }

/-- The function `newHTTPClient` (http_client.go): `httpclient.New(opts)`, settings unused. -/
def newHTTPClient (env : Env) (w : World) (_settings : BigQuerySettings) (opts : HttpOptions) :
    Except GoError HttpClient × World :=
  match env.httpclientNew w.httpClients opts with
  | some err => (.error err, { w with httpClients := w.httpClients + 1 })
  | none => (.ok w.httpClients, { w with httpClients := w.httpClients + 1 })

/-- The call `s.bqFactory(ctx, project, option.WithHTTPClient(client), option.WithEndpoint(url))`. -/
def callFactory (w : World) (project : String) (client : HttpClient) (url : String) :
    Except GoError Session × World :=
  (w.ds.bqFactory w.factoryCalls project client url, { w with factoryCalls := w.factoryCalls + 1 })

/-- Modelled from the spec: `driver.Open` of package `driver`, which is not among the
source files. It builds "a fresh driver/handle wrapping that session": on success a new
handle and an open driver on the given client, otherwise an error. -/
def driverOpen (env : Env) (w : World) (connectionSettings : ConnectionSettings)
    (bqClient : Session) : Except GoError (Driver × Handle) × World :=
  match env.driverOpenError w.opened connectionSettings bqClient with
  | some err => (.error err, { w with opened := w.opened + 1 })
  | none => (.ok ({ client := bqClient, closed := false }, w.opened),
             { w with opened := w.opened + 1 })

/-- Modelled from the spec: `api.New(client)` followed by `SetLocation(location)` of
package `api`, which is not among the source files: the catalog client "wraps the
underlying session handle plus a mutable location field". -/
def apiNew (client : Session) (location : String) : API :=
  { Client := client, location := location }

/-- The method `Close` of the driver: the same handle and client, the flag set. -/
def conn.close (c : conn) : conn :=
  { db := c.db, driver := { client := c.driver.client, closed := true } }

/-- A consumer of the handle closes the driver cached under a key. -/
def markClosed (key : String) (w : World) : World :=
  let closeAt : String × conn → String × conn :=
    fun e => if e.1 = key then (e.1, e.2.close) else e
  { w with ds := { w.ds with connections := w.ds.connections.map closeAt } }

/-! ## The datasource -/

/-- The function `parseConnectionArgs` (lines 416-425); `none` is a nil `queryArgs`. -/
def parseConnectionArgs (env : Env) (queryArgs : Option String) :
    Except GoError ConnectionArgs :=
  let args : ConnectionArgs := { Dataset := "", Table := "", Location := "", Headers := [] }
  match queryArgs with
  | some raw =>
    match env.jsonUnmarshal raw with
    | .error err => .error (.new ("error reading query params: " ++ err))
    | .ok args => .ok args
  | none => .ok args

/-- Lines 137-184 of `Connect`: no open connection is cached under the key. -/
def Connect.create (env : Env) (w : World) (config : Config) (settings : BigQuerySettings)
    (connectionSettings : ConnectionSettings) (connectionKey : String) (opts : HttpOptions) :
    Except GoError Handle × World :=
  match Load connectionKey w.ds.apiClients with
  | some aC =>
    match driverOpen env w connectionSettings aC.Client with
    | (.error err, w) => (.error (.withMessage err "Failed to connect to database"), w)
    | (.ok (dr, db), w) =>
      let w := w.storeConnection connectionKey { db := db, driver := dr }
      match Load (instanceKey config.ID) w.ds.httpClientService with
      | none =>
        match newHTTPClient env w settings opts with
        | (.error err, w) => (.error (.withMessage err "Failed to create http client"), w)
        | (.ok client, w) => (.ok db, w.setHttpClient (instanceKey config.ID) client)
      | some _ => (.ok db, w)
  | none =>
    match newHTTPClient env w settings opts with
    | (.error err, w) => (.error (.withMessage err "Failed to create http client"), w)
    | (.ok client, w) =>
      match callFactory w connectionSettings.Project client settings.URL with
      | (.error err, w) => (.error (.withMessage err "Failed to create BigQuery client"), w)
      | (.ok bqClient, w) =>
        match driverOpen env w connectionSettings bqClient with
        | (.error err, w) => (.error (.withMessage err "Failed to connect to database"), w)
        | (.ok (dr, db), w) =>
          let w := w.storeConnection connectionKey { db := db, driver := dr }
          let w := match Load (instanceKey config.ID) w.ds.httpClientService with
            | none => w.setHttpClient (instanceKey config.ID) client
            | some _ => w
          let apiInstance := apiNew bqClient connectionSettings.Location
          (.ok db, w.storeApiClient connectionKey apiInstance)

/-- The method `Connect` (lines 100-186). -/
def Connect (env : Env) (w : World) (config : Config) (queryArgs : Option String) :
    Except GoError Handle × World :=
  match env.loadSettings config with
  | .error err => (.error err, w)
  | .ok settings =>
    let w := w.setUrl settings.URL
    match parseConnectionArgs env queryArgs with
    | .error err => (.error err, w)
    | .ok args =>
      -- `args` is the pointer `parseConnectionArgs` allocated, never nil here
      let isQueryArgsSet := true
      let connectionSettings := env.getConnectionSettings settings args isQueryArgsSet
      let connectionKey :=
        connectionKey config.ID connectionSettings.Location connectionSettings.Project
      match env.HTTPClientOptions config with
      | .error err => (.error err, w)
      | .ok opts =>
        match Load connectionKey w.ds.connections with
        | some connection =>
          if !connection.driver.closed then (.ok connection.db, w)
          else Connect.create env w config settings connectionSettings connectionKey opts
        | none => Connect.create env w config settings connectionSettings connectionKey opts

/-- The method `getApi` (lines 367-409); the config is what `getDatasourceSettings(ctx)` reads. -/
def getApi (env : Env) (w : World) (datasourceSettings : Config) (project location : String) :
    Except GoError API × World :=
  let connectionKey := connectionKey datasourceSettings.ID location project
  match Load connectionKey w.ds.apiClients with
  | some cClient => (.ok cClient, w)
  | none =>
    match env.loadSettings datasourceSettings with
    | .error err => (.error err, w)
    | .ok settings =>
      let w := w.setUrl settings.URL
      match env.HTTPClientOptions datasourceSettings with
      | .error err => (.error err, w)
      | .ok httpOptions =>
        let httpOptions : HttpOptions :=
          { ForwardHTTPHeaders := true,
            Header := httpOptions.Header ++ [("Accept-Encoding", "")] }
        match newHTTPClient env w settings httpOptions with
        | (.error err, w) => (.error (.withMessage err "Failed to crate http client"), w)
        | (.ok httpClient, w) =>
          match callFactory w project httpClient settings.URL with
          | (.error err, w) =>
            (.error (.withMessage err "Failed to initialize BigQuery client"), w)
          | (.ok client, w) =>
            let apiInstance := apiNew client location
            (.ok apiInstance, w.storeApiClient connectionKey apiInstance)

/-- The function `strconv.ParseBool`. -/
def ParseBool (str : String) : Except GoError Bool :=
  if str = "1" ∨ str = "t" ∨ str = "T" ∨ str = "true" ∨ str = "TRUE" ∨ str = "True" then
    .ok true
  else if str = "0" ∨ str = "f" ∨ str = "F" ∨ str = "false" ∨ str = "FALSE"
      ∨ str = "False" then
    .ok false
  else .error (.numError "ParseBool" str "invalid syntax")

/-- The method `Tables` (lines 233-251). -/
def Tables (env : Env) (w : World) (ctx : Config) (options : Options) :
    Except GoError (List String) × World :=
  let args : TablesArgs :=
    { Project := options.get "project", Dataset := options.get "dataset",
      Location := options.get "location" }
  if args.Project = "" ∨ args.Dataset = "" then
    (.error (.new "project and dataset must be specified"), w)
  else
    match getApi env w ctx args.Project args.Location with
    | (.error err, w) => (.error (.withMessage err "Failed to retrieve BigQuery API client"), w)
    | (.ok apiClient, w) => (env.ListTables apiClient args.Dataset, w)

/-- The method `Columns` (lines 254-280). -/
def Columns (env : Env) (w : World) (ctx : Config) (options : Options) :
    Except GoError (List String) × World :=
  let args : TableSchemaArgs :=
    { Project := options.get "project", Dataset := options.get "dataset",
      Table := options.get "table", Location := options.get "location" }
  if args.Project = "" ∨ args.Dataset = "" ∨ args.Table = "" then
    (.error (.new "missing required arguments"), w)
  else
    match getApi env w ctx args.Project args.Location with
    | (.error err, w) => (.error (.withMessage err "Failed to retrieve BigQuery API client"), w)
    | (.ok apiClient, w) =>
      let isOrderableString := options.get "isOrderable"
      match ParseBool isOrderableString with
      | .error err => (.error (.withMessage err "Failed to parse isOrderable"), w)
      | .ok isOrderable => (env.ListColumns apiClient args.Dataset args.Table isOrderable, w)

/-- The method `ValidateQuery` (lines 331-349). -/
def ValidateQuery (env : Env) (w : World) (ctx : Config) (options : ValidateQueryArgs) :
    Except GoError ValidateQueryResponse × World :=
  match getApi env w ctx options.Project options.Location with
  | (.error err, w) => (.error (.withMessage err "Failed to retrieve BigQuery API client"), w)
  | (.ok apiClient, w) =>
    match env.Interpolate options.Query with
    | .error err =>
      (.ok { IsValid := false, IsError := true, Error := "Could not apply macros: " ++ err }, w)
    | .ok query => (.ok (env.ValidateQuery apiClient query), w)

/-- The function `NewDatasource` (lines 60-98) in a fresh process. The struct of lines
86-90 starts with empty caches and the start-up client registered; the closing call
`ds.NewDatasource(ctx, settings)` of the `sqlds` wrapper opens the default connection
through `Connect(ctx, settings, nil)` on that struct and fails when `Connect` fails. -/
def NewDatasource (env : Env) (settings : Config) : Except GoError World :=
  match env.HTTPClientOptions settings with
  | .error err => .error (.errorf "http client options" err)
  | .ok opts =>
    let opts : HttpOptions := { opts with ForwardHTTPHeaders := true }
    match env.loadSettings settings with
    | .error err => .error (.errorf "couldn't load connection settings" err)
    | .ok connectionSettings =>
      let opts : HttpOptions := { opts with Header := opts.Header ++ [("Accept-Encoding", "")] }
      match env.httpclientNew 0 opts with
      | some err => .error (.withMessage err "Failed to create http client")
      | none =>
        let client : HttpClient := 0
        match env.bqNewClient connectionSettings.DefaultProject client connectionSettings.URL with
        | .error err => .error (.withMessage err "Failed to create BigQuery client")
        | .ok bqClient =>
          let bqService : bqServiceFactory := fun _ _ _ _ => .ok bqClient
          let s : World :=
            { ds := { connections := [], apiClients := [], bqFactory := bqService,
                      httpClientService := [(instanceKey settings.ID, client)],
                      url := connectionSettings.URL },
              factoryCalls := 0, httpClients := 1, opened := 0, stored := [] }
          match Connect env s settings none with
          | (.error err, _) => .error err
          | (.ok _, s) => .ok s

/-! ## Runs of the datasource -/

/-- One step of a sequential run: a `Connect`, a `getApi`, or a consumer closing a driver.
The collaborators may answer differently at every step. -/
inductive Step : World → World → Prop where
  | connect (env : Env) (w : World) (config : Config) (queryArgs : Option String) :
      Step w (Connect env w config queryArgs).2
  | getApi (env : Env) (w : World) (ctx : Config) (project location : String) :
      Step w (getApi env w ctx project location).2
  | close (w : World) (key : String) : Step w (markClosed key w)

/-- Both caches are empty and nothing has been stored yet. -/
def World.fresh (w : World) : Prop :=
  w.ds.connections = [] ∧ w.ds.apiClients = [] ∧ w.stored = []

/-- The states a sequential run reaches from empty caches. -/
inductive Reachable : World → Prop where
  | init (w : World) : w.fresh → Reachable w
  | step (w w' : World) : Reachable w → Step w w' → Reachable w'

/-! ## Names for what the proofs talk about -/

/-- The key `Connect` derives (lines 116-118). -/
def Connect.key (env : Env) (config : Config) (settings : BigQuerySettings)
    (args : ConnectionArgs) : String :=
  connectionKey config.ID (env.getConnectionSettings settings args true).Location
    (env.getConnectionSettings settings args true).Project

/-- The world after the reuse branch has opened and stored a connection (lines 142-146). -/
def World.reused (w : World) (key : String) (aC : API) : World :=
  ({ w with opened := w.opened + 1 }).storeConnection key
    { db := w.opened, driver := { client := aC.Client, closed := false } }

/-- The world after the creation branch has run to its end (lines 156-183). -/
def World.created (w : World) (id : Int) (key : String) (s : Session) (location : String) :
    World :=
  let w3 : World :=
    { w with httpClients := w.httpClients + 1, factoryCalls := w.factoryCalls + 1,
             opened := w.opened + 1 }
  let w4 := w3.storeConnection key { db := w.opened, driver := { client := s, closed := false } }
  let w5 := match Load (instanceKey id) w4.ds.httpClientService with
    | none => w4.setHttpClient (instanceKey id) w.httpClients
    | some _ => w4
  w5.storeApiClient key (apiNew s location)

/-- The same datasource with another content of the query-execution cache. -/
def World.withConnections (w : World) (connections : List (String × conn)) : World :=
  { w with ds := { w.ds with connections := connections } }

/-- The key `getApi` derives (line 369). -/
def getApi.key (ctx : Config) (project location : String) : String :=
  connectionKey ctx.ID location project

/-- The world after `getApi` has built and stored a client (lines 377-405). -/
def World.catalogued (w : World) (url key : String) (s : Session) (location : String) : World :=
  ({ w.setUrl url with httpClients := w.httpClients + 1,
                        factoryCalls := w.factoryCalls + 1 }).storeApiClient key
    (apiNew s location)

/-- What every reachable state satisfies: whatever was ever stored under a key is the
session of the catalog client cached there; a cached connection has a handle that was
handed out and is on record; a cached catalog client is on record. -/
def Inv (w : World) : Prop :=
  (∀ k s, (k, s) ∈ w.stored → ∃ a, Load k w.ds.apiClients = some a ∧ a.Client = s) ∧
  (∀ k c, Load k w.ds.connections = some c →
    c.db < w.opened ∧ (k, c.driver.client) ∈ w.stored) ∧
  (∀ k a, Load k w.ds.apiClients = some a → (k, a.Client) ∈ w.stored)

/-! ## A concrete datasource, to run the definitions on -/

/-- Collaborators that all succeed. The default project is the JSON text of the config,
the default location is "US", a payload is never decodable and the empty query fails
macro interpolation. -/
def demoEnv : Env where
  loadSettings := fun c =>
    .ok { URL := "https://bq/", DefaultProject := c.JSONData, ProcessingLocation := "US" }
  jsonUnmarshal := fun _ => .error "unexpected end of JSON input"
  getConnectionSettings := fun s a _ =>
    { Project := s.DefaultProject,
      Location := if a.Location = "" then s.ProcessingLocation else a.Location,
      Dataset := a.Dataset, Table := a.Table }
  HTTPClientOptions := fun _ => .ok { ForwardHTTPHeaders := false, Header := [] }
  httpclientNew := fun _ _ => none
  driverOpenError := fun _ _ _ => none
  bqNewClient := fun _ _ _ => .ok 7
  Interpolate := fun q => if q = "" then .error "missing macro" else .ok q
  ListTables := fun _ _ => .ok []
  ListColumns := fun _ _ _ _ => .ok []
  ValidateQuery := fun _ _ => { IsValid := true, IsError := false, Error := "" }

/-- The collaborators of `demoEnv`, except that no transport client can be built. -/
def noTransportEnv : Env :=
  { demoEnv with httpclientNew := fun _ _ => some (.new "no transport") }

/-- The collaborators of `demoEnv`, except that `driver.Open` fails. -/
def noDriverEnv : Env :=
  { demoEnv with driverOpenError := fun _ _ _ => some (.new "no driver") }

/-- A factory that hands out a new session at every invocation. -/
def countingFactory : bqServiceFactory := fun n _ _ _ => .ok (100 + n)

/-- A factory that always fails. -/
def failingFactory : bqServiceFactory := fun _ _ _ _ => .error (.new "no credentials")

/-- A datasource with empty caches, an empty transport registry and the given factory. -/
def emptyWorld (factory : bqServiceFactory) : World :=
  { ds := { connections := [], apiClients := [], bqFactory := factory,
            httpClientService := [], url := "" },
    factoryCalls := 0, httpClients := 0, opened := 0, stored := [] }

/-- The config of instance 1 with the given default project. -/
def demoConfig (project : String) : Config := { ID := 1, JSONData := project }

/-- The datasource with only a catalog client cached, under the key of instance 1,
location "US" and project "A". -/
def catalogOnlyWorld : World :=
  (getApi demoEnv (emptyWorld countingFactory) (demoConfig "A") "A" "US").2

/-- The datasource after one `Connect` for project "A" from empty caches. -/
def connectedWorld : World :=
  (Connect demoEnv (emptyWorld countingFactory) (demoConfig "A") none).2

/-- The datasource `NewDatasource` builds for instance 1 with default project "A". -/
def installedWorld : World :=
  match NewDatasource demoEnv (demoConfig "A") with
  | .ok w => w
  | .error _ => emptyWorld failingFactory

/-- Empty caches and an empty registry with the factory `NewDatasource` installed. -/
def installedEmptyWorld : World := emptyWorld installedWorld.ds.bqFactory

/-- Options for `Columns` with all three names given and a malformed flag. -/
def badFlagOptions : Options :=
  [("project", "A"), ("dataset", "d"), ("table", "t"), ("isOrderable", "notabool")]

end BigQuery

namespace BigQuery

theorem digitChar_toNat (d : Nat) (h : d < 10) : (digitChar d).toNat - 48 = d := by
  interval_cases d <;> decide

theorem digitChar_ne_slash (d : Nat) (h : d < 10) : digitChar d ≠ '/' := by
  interval_cases d <;> decide

theorem digitChar_ne_minus (d : Nat) (h : d < 10) : digitChar d ≠ '-' := by
  interval_cases d <;> decide

theorem digitsValue_natDigits (fuel : Nat) :
    ∀ (n : Nat) (acc : List Char), n < fuel →
      digitsValue 0 (natDigits fuel n acc) = digitsValue n acc := by
  induction fuel with
  | zero => intro n acc h; omega
  | succ fuel ih =>
    intro n acc h
    unfold natDigits
    split
    · rename_i h0
      have hn : n % 10 = n := by omega
      have hd := digitChar_toNat (n % 10) (by omega)
      rw [hn] at hd
      simp only [digitsValue, List.foldl, hn, hd, Nat.mul_zero, Nat.zero_add]
    · rename_i h0
      rw [ih (n / 10) _ (by omega)]
      simp only [digitsValue, List.foldl, digitChar_toNat (n % 10) (by omega)]
      congr 1
      omega

theorem digitsValue_formatNat (n : Nat) : digitsValue 0 (formatNat n) = n := by
  unfold formatNat
  rw [digitsValue_natDigits (n + 1) n [] (by omega)]
  rfl

/-- Every character `natDigits` adds is a decimal digit. -/
theorem natDigits_mem (fuel : Nat) :
    ∀ (n : Nat) (acc : List Char) (c : Char), c ∈ natDigits fuel n acc →
      c ∈ acc ∨ ∃ d, d < 10 ∧ c = digitChar d := by
  induction fuel with
  | zero => intro n acc c h; exact Or.inl h
  | succ fuel ih =>
    intro n acc c h
    unfold natDigits at h
    split at h
    · rcases List.mem_cons.1 h with h | h
      · exact Or.inr ⟨n % 10, by omega, h⟩
      · exact Or.inl h
    · rcases ih _ _ _ h with h | h
      · rcases List.mem_cons.1 h with h | h
        · exact Or.inr ⟨n % 10, by omega, h⟩
        · exact Or.inl h
      · exact Or.inr h

theorem formatNat_mem (n : Nat) (c : Char) (h : c ∈ formatNat n) :
    ∃ d, d < 10 ∧ c = digitChar d := by
  rcases natDigits_mem _ _ _ _ h with h | h
  · cases h
  · exact h

theorem natDigits_ne_nil (fuel n : Nat) (acc : List Char) (h : 0 < fuel) :
    natDigits fuel n acc ≠ [] := by
  induction fuel generalizing n acc with
  | zero => omega
  | succ fuel ih =>
    unfold natDigits
    split
    · simp
    · cases fuel with
      | zero => simp [natDigits]
      | succ k => exact ih _ _ (by omega)

theorem formatNat_ne_nil (n : Nat) : formatNat n ≠ [] :=
  natDigits_ne_nil _ _ _ (by omega)

theorem readInt_formatInt (i : Int) : readInt (formatInt i) = i := by
  cases i with
  | ofNat n =>
    have hne := formatNat_ne_nil n
    have hv := digitsValue_formatNat n
    show readInt (formatNat n) = _
    cases hl : formatNat n with
    | nil => exact absurd hl hne
    | cons c cs =>
      have hc : c ∈ formatNat n := by rw [hl]; simp
      obtain ⟨d, hd, rfl⟩ := formatNat_mem n _ hc
      rw [hl] at hv
      simp [readInt, digitChar_ne_minus d hd, hv]
  | negSucc n =>
    show readInt ('-' :: formatNat (n + 1)) = _
    simp only [readInt, if_true, digitsValue_formatNat]
    rfl

theorem formatInt_injective (i j : Int) (h : formatInt i = formatInt j) : i = j := by
  rw [← readInt_formatInt i, ← readInt_formatInt j, h]

theorem slash_not_mem_formatInt (i : Int) : '/' ∉ formatInt i := by
  intro h
  cases i with
  | ofNat n =>
    obtain ⟨d, hd, hc⟩ := formatNat_mem n _ h
    exact digitChar_ne_slash d hd hc.symm
  | negSucc n =>
    rcases List.mem_cons.1 h with h | h
    · exact absurd h (by decide)
    · obtain ⟨d, hd, hc⟩ := formatNat_mem _ _ h
      exact digitChar_ne_slash d hd hc.symm

/-- Two lists cut at the first occurrence of a separator agree piecewise. -/
theorem append_sep_inj {α : Type} (c : α) :
    ∀ (a a' b b' : List α), c ∉ a → c ∉ a' → a ++ c :: b = a' ++ c :: b' → a = a' ∧ b = b' := by
  intro a
  induction a with
  | nil =>
    intro a' b b' _ h' h
    cases a' with
    | nil => simpa using h
    | cons x xs =>
      simp only [List.nil_append, List.cons_append, List.cons.injEq] at h
      exact absurd (by simp [h.1]) h'
  | cons y ys ih =>
    intro a' b b' h1 h' h
    cases a' with
    | nil =>
      simp only [List.nil_append, List.cons_append, List.cons.injEq] at h
      exact absurd (by simp [h.1]) h1
    | cons x xs =>
      simp only [List.cons_append, List.cons.injEq] at h
      have := ih xs b b' (fun m => h1 (List.mem_cons_of_mem _ m))
        (fun m => h' (List.mem_cons_of_mem _ m)) h.2
      exact ⟨by rw [h.1, this.1], this.2⟩

/-! ## Maps -/

theorem Load_filter_ne {V : Type} (k k' : String) (m : List (String × V)) (h : k' ≠ k) :
    Load k' (m.filter (fun e => decide (e.1 ≠ k))) = Load k' m := by
  induction m with
  | nil => rfl
  | cons e m ih =>
    obtain ⟨a, v⟩ := e
    by_cases ha : a = k
    · subst ha
      have h1 : ¬ a = k' := fun h' => h h'.symm
      rw [List.filter_cons_of_neg (by simp), ih]
      simp [Load, h1]
    · rw [List.filter_cons_of_pos (by simpa using ha)]
      by_cases hk : a = k'
      · simp [Load, hk]
      · simp only [Load, hk, if_false]
        exact ih

theorem Load_Store_self {V : Type} (k : String) (v : V) (m : List (String × V)) :
    Load k (Store k v m) = some v := by
  simp [Store, Load]

theorem Load_Store_ne {V : Type} (k k' : String) (v : V) (m : List (String × V))
    (h : k' ≠ k) : Load k' (Store k v m) = Load k' m := by
  have : ¬ k = k' := fun h' => h h'.symm
  simp only [Store, Load, this, if_false]
  exact Load_filter_ne k k' m h

/-! ## The connection key -/

theorem connectionKey_instance (i1 i2 : Int) (l1 p1 l2 p2 : String)
    (h : connectionKey i1 l1 p1 = connectionKey i2 l2 p2) :
    i1 = i2 ∧ l1.data ++ ':' :: p1.data = l2.data ++ ':' :: p2.data := by
  have h' : formatInt i1 ++ '/' :: (l1.data ++ ':' :: p1.data)
      = formatInt i2 ++ '/' :: (l2.data ++ ':' :: p2.data) := by
    have := congrArg String.data h
    simpa [connectionKey] using this
  have := append_sep_inj '/' _ _ _ _ (slash_not_mem_formatInt i1) (slash_not_mem_formatInt i2) h'
  exact ⟨formatInt_injective _ _ this.1, this.2⟩

/-- C6 (as stated, refuted): a colon in the location moves the cut between location and
project, so two different triples share one key. -/
theorem connectionKey_collision :
    ¬ (connectionKey 1 "a:b" "c" = connectionKey 1 "a" "b:c" ↔
        ((1 : Int) = 1 ∧ "a:b" = "a" ∧ "c" = "b:c")) := by
  decide

/-- C6 (amended): for locations without a colon the key determines the triple: two keys
are equal exactly when instance, location and project are equal, empty strings included;
and the key `Connect` derives from its connection settings is the key `getApi` derives
from the same instance, project and location. -/
theorem connectionKey_eq_iff (i1 i2 : Int) (l1 p1 l2 p2 : String)
    (h1 : ':' ∉ l1.data) (h2 : ':' ∉ l2.data) :
    (connectionKey i1 l1 p1 = connectionKey i2 l2 p2 ↔ i1 = i2 ∧ l1 = l2 ∧ p1 = p2) ∧
    (∀ (env : Env) (config : Config) (settings : BigQuerySettings) (args : ConnectionArgs),
      Connect.key env config settings args
        = getApi.key config (env.getConnectionSettings settings args true).Project
            (env.getConnectionSettings settings args true).Location) := by
  refine ⟨⟨?_, ?_⟩, fun _ _ _ _ => rfl⟩
  · intro h
    obtain ⟨hi, hr⟩ := connectionKey_instance _ _ _ _ _ _ h
    obtain ⟨hl, hp⟩ := append_sep_inj ':' _ _ _ _ h1 h2 hr
    exact ⟨hi, String.ext hl, String.ext hp⟩
  · rintro ⟨rfl, rfl, rfl⟩
    rfl

theorem connectionKey_eq_iff_witness :
    (':' ∉ "US".data ∧ ':' ∉ "".data) ∧
    (connectionKey 7 "US" "" = connectionKey 7 "" "US" ↔
      (7 : Int) = 7 ∧ "US" = "" ∧ "" = "US") :=
  ⟨by decide, (connectionKey_eq_iff 7 7 "US" "" "" "US" (by decide) (by decide)).1⟩

/-! ## Validation -/

/-- C8: with a blank project or dataset `Tables` fails with its validation error, and with a
blank project, dataset or table `Columns` fails with its own; either leaves the whole state
as it was, so no cache is read or written and the factory is not invoked. -/
theorem validation_before_lookup (env : Env) (w : World) (ctx : Config) (options : Options) :
    ((options.get "project" = "" ∨ options.get "dataset" = "") →
      Tables env w ctx options = (.error (.new "project and dataset must be specified"), w)) ∧
    ((options.get "project" = "" ∨ options.get "dataset" = "" ∨ options.get "table" = "") →
      Columns env w ctx options = (.error (.new "missing required arguments"), w)) := by
  constructor
  · intro h
    simp only [Tables, if_pos h]
  · intro h
    simp only [Columns, if_pos h]

theorem validation_before_lookup_witness :
    (Options.get [("project", "A")] "dataset" = "" ∧
      Options.get [("project", "A"), ("dataset", "d")] "table" = "") ∧
    Tables demoEnv (emptyWorld countingFactory) (demoConfig "A") [("project", "A")]
      = (.error (.new "project and dataset must be specified"), emptyWorld countingFactory) ∧
    Columns demoEnv (emptyWorld countingFactory) (demoConfig "A")
        [("project", "A"), ("dataset", "d")]
      = (.error (.new "missing required arguments"), emptyWorld countingFactory) :=
  ⟨⟨by decide, by decide⟩,
    (validation_before_lookup demoEnv (emptyWorld countingFactory) (demoConfig "A")
      [("project", "A")]).1 (Or.inr (by decide)),
    (validation_before_lookup demoEnv (emptyWorld countingFactory) (demoConfig "A")
      [("project", "A"), ("dataset", "d")]).2 (Or.inr (Or.inr (by decide)))⟩

/-! ## The paths of `Connect` -/

theorem Connect_fast (env : Env) (w : World) (config : Config) (queryArgs : Option String)
    (settings : BigQuerySettings) (args : ConnectionArgs) (opts : HttpOptions) (c : conn)
    (hs : env.loadSettings config = .ok settings)
    (ha : parseConnectionArgs env queryArgs = .ok args)
    (ho : env.HTTPClientOptions config = .ok opts)
    (hc : Load (Connect.key env config settings args) w.ds.connections = some c)
    (hopen : c.driver.closed = false) :
    Connect env w config queryArgs = (.ok c.db, w.setUrl settings.URL) := by
  unfold Connect.key at hc
  have hc' : Load (connectionKey config.ID (env.getConnectionSettings settings args true).Location
      (env.getConnectionSettings settings args true).Project) (w.setUrl settings.URL).ds.connections
      = some c := hc
  simp only [Connect, hs, ha, ho, hc', hopen]
  rfl

theorem Connect_slow (env : Env) (w : World) (config : Config) (queryArgs : Option String)
    (settings : BigQuerySettings) (args : ConnectionArgs) (opts : HttpOptions)
    (hs : env.loadSettings config = .ok settings)
    (ha : parseConnectionArgs env queryArgs = .ok args)
    (ho : env.HTTPClientOptions config = .ok opts)
    (hc : ∀ c, Load (Connect.key env config settings args) w.ds.connections = some c →
      c.driver.closed = true) :
    Connect env w config queryArgs =
      Connect.create env (w.setUrl settings.URL) config settings
        (env.getConnectionSettings settings args true)
        (Connect.key env config settings args) opts := by
  unfold Connect.key at hc ⊢
  simp only [Connect, hs, ha, ho]
  split
  · rename_i c hcc
    have := hc c hcc
    simp [this]
  · rfl

section paths
variable (env : Env) (w : World) (config : Config) (settings : BigQuerySettings)
  (cs : ConnectionSettings) (key : String) (opts : HttpOptions)

theorem create_reuse_openError (aC : API) (err : GoError)
    (hapi : Load key w.ds.apiClients = some aC)
    (hd : env.driverOpenError w.opened cs aC.Client = some err) :
    Connect.create env w config settings cs key opts =
      (.error (.withMessage err "Failed to connect to database"),
        { w with opened := w.opened + 1 }) := by
  simp only [Connect.create, hapi, driverOpen, hd]

theorem create_reuse_registered (aC : API) (client : HttpClient)
    (hapi : Load key w.ds.apiClients = some aC)
    (hd : env.driverOpenError w.opened cs aC.Client = none)
    (hreg : Load (instanceKey config.ID) w.ds.httpClientService = some client) :
    Connect.create env w config settings cs key opts = (.ok w.opened, w.reused key aC) := by
  simp [Connect.create, hapi, driverOpen, hd, World.storeConnection, World.reused, hreg]

theorem create_reuse_transportError (aC : API) (err : GoError)
    (hapi : Load key w.ds.apiClients = some aC)
    (hd : env.driverOpenError w.opened cs aC.Client = none)
    (hreg : Load (instanceKey config.ID) w.ds.httpClientService = none)
    (hh : env.httpclientNew w.httpClients opts = some err) :
    Connect.create env w config settings cs key opts =
      (.error (.withMessage err "Failed to create http client"),
        { w.reused key aC with httpClients := w.httpClients + 1 }) := by
  simp [Connect.create, hapi, driverOpen, hd, World.storeConnection, World.reused, hreg,
    newHTTPClient, hh]

theorem create_reuse_transportBuilt (aC : API)
    (hapi : Load key w.ds.apiClients = some aC)
    (hd : env.driverOpenError w.opened cs aC.Client = none)
    (hreg : Load (instanceKey config.ID) w.ds.httpClientService = none)
    (hh : env.httpclientNew w.httpClients opts = none) :
    Connect.create env w config settings cs key opts =
      (.ok w.opened,
        ({ w.reused key aC with httpClients := w.httpClients + 1 }).setHttpClient
          (instanceKey config.ID) w.httpClients) := by
  simp [Connect.create, hapi, driverOpen, hd, World.storeConnection, World.reused, hreg,
    newHTTPClient, hh]

theorem create_new_transportError (err : GoError)
    (hapi : Load key w.ds.apiClients = none)
    (hh : env.httpclientNew w.httpClients opts = some err) :
    Connect.create env w config settings cs key opts =
      (.error (.withMessage err "Failed to create http client"),
        { w with httpClients := w.httpClients + 1 }) := by
  simp only [Connect.create, hapi, newHTTPClient, hh]

theorem create_new_factoryError (err : GoError)
    (hapi : Load key w.ds.apiClients = none)
    (hh : env.httpclientNew w.httpClients opts = none)
    (hf : w.ds.bqFactory w.factoryCalls cs.Project w.httpClients settings.URL = .error err) :
    Connect.create env w config settings cs key opts =
      (.error (.withMessage err "Failed to create BigQuery client"),
        { w with httpClients := w.httpClients + 1, factoryCalls := w.factoryCalls + 1 }) := by
  simp only [Connect.create, hapi, newHTTPClient, hh, callFactory, hf]

theorem create_new_openError (s : Session) (err : GoError)
    (hapi : Load key w.ds.apiClients = none)
    (hh : env.httpclientNew w.httpClients opts = none)
    (hf : w.ds.bqFactory w.factoryCalls cs.Project w.httpClients settings.URL = .ok s)
    (hd : env.driverOpenError w.opened cs s = some err) :
    Connect.create env w config settings cs key opts =
      (.error (.withMessage err "Failed to connect to database"),
        { w with httpClients := w.httpClients + 1, factoryCalls := w.factoryCalls + 1,
                 opened := w.opened + 1 }) := by
  simp only [Connect.create, hapi, newHTTPClient, hh, callFactory, hf, driverOpen, hd]

theorem create_new_ok (s : Session)
    (hapi : Load key w.ds.apiClients = none)
    (hh : env.httpclientNew w.httpClients opts = none)
    (hf : w.ds.bqFactory w.factoryCalls cs.Project w.httpClients settings.URL = .ok s)
    (hd : env.driverOpenError w.opened cs s = none) :
    Connect.create env w config settings cs key opts =
      (.ok w.opened, w.created config.ID key s cs.Location) := by
  simp only [Connect.create, hapi, newHTTPClient, hh, callFactory, hf, driverOpen, hd]
  rfl

end paths
/-! ## The paths of `getApi` -/

section apiPaths
variable (env : Env) (w : World) (ctx : Config) (project location : String)

theorem getApi_hit (a : API)
    (hapi : Load (getApi.key ctx project location) w.ds.apiClients = some a) :
    getApi env w ctx project location = (.ok a, w) := by
  unfold getApi.key at hapi
  simp only [getApi, hapi]

theorem getApi_settingsError (err : GoError)
    (hapi : Load (getApi.key ctx project location) w.ds.apiClients = none)
    (hs : env.loadSettings ctx = .error err) :
    getApi env w ctx project location = (.error err, w) := by
  unfold getApi.key at hapi
  simp only [getApi, hapi, hs]

theorem getApi_optionsError (settings : BigQuerySettings) (err : GoError)
    (hapi : Load (getApi.key ctx project location) w.ds.apiClients = none)
    (hs : env.loadSettings ctx = .ok settings)
    (ho : env.HTTPClientOptions ctx = .error err) :
    getApi env w ctx project location = (.error err, w.setUrl settings.URL) := by
  unfold getApi.key at hapi
  simp only [getApi, hapi, hs, ho]

theorem getApi_transportError (settings : BigQuerySettings) (opts : HttpOptions)
    (err : GoError)
    (hapi : Load (getApi.key ctx project location) w.ds.apiClients = none)
    (hs : env.loadSettings ctx = .ok settings)
    (ho : env.HTTPClientOptions ctx = .ok opts)
    (hh : env.httpclientNew w.httpClients
      { ForwardHTTPHeaders := true, Header := opts.Header ++ [("Accept-Encoding", "")] }
      = some err) :
    getApi env w ctx project location =
      (.error (.withMessage err "Failed to crate http client"),
        { w.setUrl settings.URL with httpClients := w.httpClients + 1 }) := by
  unfold getApi.key at hapi
  simp [getApi, hapi, hs, ho, newHTTPClient, World.setUrl, hh]

theorem getApi_factoryError (settings : BigQuerySettings) (opts : HttpOptions)
    (err : GoError)
    (hapi : Load (getApi.key ctx project location) w.ds.apiClients = none)
    (hs : env.loadSettings ctx = .ok settings)
    (ho : env.HTTPClientOptions ctx = .ok opts)
    (hh : env.httpclientNew w.httpClients
      { ForwardHTTPHeaders := true, Header := opts.Header ++ [("Accept-Encoding", "")] }
      = none)
    (hf : w.ds.bqFactory w.factoryCalls project w.httpClients settings.URL = .error err) :
    getApi env w ctx project location =
      (.error (.withMessage err "Failed to initialize BigQuery client"),
        { w.setUrl settings.URL with httpClients := w.httpClients + 1,
                                      factoryCalls := w.factoryCalls + 1 }) := by
  unfold getApi.key at hapi
  simp [getApi, hapi, hs, ho, newHTTPClient, World.setUrl, hh, callFactory, hf]

theorem getApi_created (settings : BigQuerySettings) (opts : HttpOptions) (s : Session)
    (hapi : Load (getApi.key ctx project location) w.ds.apiClients = none)
    (hs : env.loadSettings ctx = .ok settings)
    (ho : env.HTTPClientOptions ctx = .ok opts)
    (hh : env.httpclientNew w.httpClients
      { ForwardHTTPHeaders := true, Header := opts.Header ++ [("Accept-Encoding", "")] }
      = none)
    (hf : w.ds.bqFactory w.factoryCalls project w.httpClients settings.URL = .ok s) :
    getApi env w ctx project location =
      (.ok (apiNew s location),
        w.catalogued settings.URL (getApi.key ctx project location) s location) := by
  unfold getApi.key at hapi
  simp [getApi, hapi, hs, ho, newHTTPClient, World.setUrl, hh, callFactory, hf,
    World.catalogued, getApi.key]

end apiPaths

/-! ## The invariant -/

theorem inv_frame (w w' : World) (hc : w'.ds.connections = w.ds.connections)
    (ha : w'.ds.apiClients = w.ds.apiClients) (hst : w'.stored = w.stored)
    (ho : w.opened ≤ w'.opened) (h : Inv w) : Inv w' := by
  obtain ⟨h1, h2, h3⟩ := h
  refine ⟨?_, ?_, ?_⟩
  · intro k s hk
    rw [hst] at hk
    rw [ha]
    exact h1 k s hk
  · intro k c hk
    rw [hc] at hk
    rw [hst]
    exact ⟨lt_of_lt_of_le (h2 k c hk).1 ho, (h2 k c hk).2⟩
  · intro k a hk
    rw [ha] at hk
    rw [hst]
    exact h3 k a hk

theorem inv_reused (w : World) (key : String) (aC : API) (h : Inv w)
    (hapi : Load key w.ds.apiClients = some aC) : Inv (w.reused key aC) := by
  obtain ⟨h1, h2, h3⟩ := h
  refine ⟨?_, ?_, ?_⟩
  · intro k s hk
    simp only [World.reused, World.storeConnection, List.mem_cons, Prod.mk.injEq] at hk ⊢
    rcases hk with ⟨rfl, rfl⟩ | hk
    · exact ⟨aC, hapi, rfl⟩
    · exact h1 k s hk
  · intro k c hk
    simp only [World.reused, World.storeConnection] at hk ⊢
    by_cases hkk : k = key
    · subst hkk
      rw [Load_Store_self] at hk
      cases hk
      exact ⟨Nat.lt_succ_self _, List.mem_cons_self _ _⟩
    · rw [Load_Store_ne _ _ _ _ hkk] at hk
      exact ⟨Nat.lt_succ_of_lt (h2 k c hk).1, List.mem_cons_of_mem _ (h2 k c hk).2⟩
  · intro k a hk
    simp only [World.reused, World.storeConnection] at hk ⊢
    exact List.mem_cons_of_mem _ (h3 k a hk)

theorem created_fields (w : World) (id : Int) (key : String) (s : Session)
    (location : String) :
    (w.created id key s location).ds.connections
        = Store key { db := w.opened, driver := { client := s, closed := false } }
            w.ds.connections ∧
    (w.created id key s location).ds.apiClients
        = Store key (apiNew s location) w.ds.apiClients ∧
    (w.created id key s location).stored = (key, s) :: (key, s) :: w.stored ∧
    (w.created id key s location).opened = w.opened + 1 ∧
    (w.created id key s location).factoryCalls = w.factoryCalls + 1 ∧
    (w.created id key s location).httpClients = w.httpClients + 1 ∧
    (w.created id key s location).ds.bqFactory = w.ds.bqFactory ∧
    (w.created id key s location).ds.url = w.ds.url := by
  unfold World.created
  cases hreg : Load (instanceKey id) w.ds.httpClientService <;>
    simp [World.storeConnection, World.storeApiClient, World.setHttpClient, hreg, apiNew]

theorem inv_created (w : World) (id : Int) (key : String) (s : Session)
    (location : String) (h : Inv w) (hapi : Load key w.ds.apiClients = none) :
    Inv (w.created id key s location) := by
  obtain ⟨h1, h2, h3⟩ := h
  obtain ⟨ec, ea, es, eo, -, -, -, -⟩ := created_fields w id key s location
  refine ⟨?_, ?_, ?_⟩
  · intro k s' hk
    rw [es] at hk
    rw [ea]
    simp only [List.mem_cons, Prod.mk.injEq] at hk
    rcases hk with ⟨rfl, rfl⟩ | ⟨rfl, rfl⟩ | hk
    · exact ⟨_, Load_Store_self _ _ _, rfl⟩
    · exact ⟨_, Load_Store_self _ _ _, rfl⟩
    · by_cases hkk : k = key
      · subst hkk
        obtain ⟨a, ha, -⟩ := h1 k s' hk
        rw [hapi] at ha
        cases ha
      · rw [Load_Store_ne _ _ _ _ hkk]
        exact h1 k s' hk
  · intro k c hk
    rw [ec] at hk
    rw [es, eo]
    by_cases hkk : k = key
    · subst hkk
      rw [Load_Store_self] at hk
      cases hk
      exact ⟨Nat.lt_succ_self _, List.mem_cons_self _ _⟩
    · rw [Load_Store_ne _ _ _ _ hkk] at hk
      exact ⟨Nat.lt_succ_of_lt (h2 k c hk).1,
        List.mem_cons_of_mem _ (List.mem_cons_of_mem _ (h2 k c hk).2)⟩
  · intro k a hk
    rw [ea] at hk
    rw [es]
    by_cases hkk : k = key
    · subst hkk
      rw [Load_Store_self] at hk
      cases hk
      exact List.mem_cons_self _ _
    · rw [Load_Store_ne _ _ _ _ hkk] at hk
      exact List.mem_cons_of_mem _ (List.mem_cons_of_mem _ (h3 k a hk))

theorem inv_catalogued (w : World) (url key : String) (s : Session) (location : String)
    (h : Inv w) (hapi : Load key w.ds.apiClients = none) :
    Inv (w.catalogued url key s location) := by
  obtain ⟨h1, h2, h3⟩ := h
  refine ⟨?_, ?_, ?_⟩
  · intro k s' hk
    simp only [World.catalogued, World.storeApiClient, World.setUrl, apiNew, List.mem_cons,
      Prod.mk.injEq] at hk ⊢
    rcases hk with ⟨rfl, rfl⟩ | hk
    · exact ⟨_, Load_Store_self _ _ _, rfl⟩
    · by_cases hkk : k = key
      · subst hkk
        obtain ⟨a, ha, -⟩ := h1 k s' hk
        rw [hapi] at ha
        cases ha
      · rw [Load_Store_ne _ _ _ _ hkk]
        exact h1 k s' hk
  · intro k c hk
    simp only [World.catalogued, World.storeApiClient, World.setUrl] at hk ⊢
    exact ⟨(h2 k c hk).1, List.mem_cons_of_mem _ (h2 k c hk).2⟩
  · intro k a hk
    simp only [World.catalogued, World.storeApiClient, World.setUrl, apiNew] at hk ⊢
    by_cases hkk : k = key
    · subst hkk
      rw [Load_Store_self] at hk
      cases hk
      exact List.mem_cons_self _ _
    · rw [Load_Store_ne _ _ _ _ hkk] at hk
      exact List.mem_cons_of_mem _ (h3 k a hk)

theorem Load_map_close (key k : String) (m : List (String × conn)) :
    Load k (m.map (fun e => if e.1 = key then (e.1, e.2.close) else e))
      = (Load k m).map (fun c => if k = key then c.close else c) := by
  induction m with
  | nil => rfl
  | cons e m ih =>
    obtain ⟨a, c⟩ := e
    rw [List.map_cons]
    by_cases ha : a = key
    · rw [if_pos (show (a, c).1 = key from ha)]
      by_cases hk : a = k
      · have hkk : k = key := hk ▸ ha
        simp only [Load, if_pos hk, Option.map_some', if_pos hkk]
      · simp only [Load, if_neg hk]
        exact ih
    · rw [if_neg (show ¬ (a, c).1 = key from ha)]
      by_cases hk : a = k
      · have hkk : ¬ k = key := hk ▸ ha
        simp only [Load, if_pos hk, Option.map_some', if_neg hkk]
      · simp only [Load, if_neg hk]
        exact ih

theorem inv_markClosed (w : World) (key : String) (h : Inv w) : Inv (markClosed key w) := by
  obtain ⟨h1, h2, h3⟩ := h
  refine ⟨h1, ?_, h3⟩
  intro k c hk
  simp only [markClosed] at hk ⊢
  rw [Load_map_close] at hk
  cases hl : Load k w.ds.connections with
  | none => rw [hl] at hk; cases hk
  | some c0 =>
    rw [hl] at hk
    simp only [Option.map_some', Option.some.injEq] at hk
    have := h2 k c0 hl
    subst hk
    split <;> exact this

theorem inv_create (env : Env) (w : World) (config : Config) (settings : BigQuerySettings)
    (cs : ConnectionSettings) (key : String) (opts : HttpOptions) (h : Inv w) :
    Inv (Connect.create env w config settings cs key opts).2 := by
  cases hapi : Load key w.ds.apiClients with
  | some aC =>
    cases hd : env.driverOpenError w.opened cs aC.Client with
    | some err =>
      rw [create_reuse_openError env w config settings cs key opts aC err hapi hd]
      exact inv_frame w _ rfl rfl rfl (Nat.le_succ _) h
    | none =>
      have hr := inv_reused w key aC h hapi
      cases hreg : Load (instanceKey config.ID) w.ds.httpClientService with
      | some client =>
        rw [create_reuse_registered env w config settings cs key opts aC client hapi hd hreg]
        exact hr
      | none =>
        cases hh : env.httpclientNew w.httpClients opts with
        | some err =>
          rw [create_reuse_transportError env w config settings cs key opts aC err hapi hd
            hreg hh]
          exact inv_frame _ _ rfl rfl rfl (Nat.le_refl _) hr
        | none =>
          rw [create_reuse_transportBuilt env w config settings cs key opts aC hapi hd hreg hh]
          exact inv_frame _ _ rfl rfl rfl (Nat.le_refl _) hr
  | none =>
    cases hh : env.httpclientNew w.httpClients opts with
    | some err =>
      rw [create_new_transportError env w config settings cs key opts err hapi hh]
      exact inv_frame w _ rfl rfl rfl (Nat.le_refl _) h
    | none =>
      cases hf : w.ds.bqFactory w.factoryCalls cs.Project w.httpClients settings.URL with
      | error err =>
        rw [create_new_factoryError env w config settings cs key opts err hapi hh hf]
        exact inv_frame w _ rfl rfl rfl (Nat.le_refl _) h
      | ok s =>
        cases hd : env.driverOpenError w.opened cs s with
        | some err =>
          rw [create_new_openError env w config settings cs key opts s err hapi hh hf hd]
          exact inv_frame w _ rfl rfl rfl (Nat.le_succ _) h
        | none =>
          rw [create_new_ok env w config settings cs key opts s hapi hh hf hd]
          exact inv_created w config.ID key s cs.Location h hapi

theorem inv_Connect (env : Env) (w : World) (config : Config) (queryArgs : Option String)
    (h : Inv w) : Inv (Connect env w config queryArgs).2 := by
  cases hs : env.loadSettings config with
  | error err => simp only [Connect, hs]; exact h
  | ok settings =>
    have hu : Inv (w.setUrl settings.URL) := inv_frame w _ rfl rfl rfl (Nat.le_refl _) h
    cases ha : parseConnectionArgs env queryArgs with
    | error err => simp only [Connect, hs, ha]; exact hu
    | ok args =>
      cases ho : env.HTTPClientOptions config with
      | error err => simp only [Connect, hs, ha, ho]; exact hu
      | ok opts =>
        by_cases hc : ∀ c, Load (Connect.key env config settings args) w.ds.connections
            = some c → c.driver.closed = true
        · rw [Connect_slow env w config queryArgs settings args opts hs ha ho hc]
          exact inv_create _ _ _ _ _ _ _ hu
        · push_neg at hc
          obtain ⟨c, hc1, hc2⟩ := hc
          rw [Connect_fast env w config queryArgs settings args opts c hs ha ho hc1
            (by simpa using hc2)]
          exact hu

theorem inv_getApi (env : Env) (w : World) (ctx : Config) (project location : String)
    (h : Inv w) : Inv (getApi env w ctx project location).2 := by
  cases hapi : Load (getApi.key ctx project location) w.ds.apiClients with
  | some a => rw [getApi_hit env w ctx project location a hapi]; exact h
  | none =>
    cases hs : env.loadSettings ctx with
    | error err => rw [getApi_settingsError env w ctx project location err hapi hs]; exact h
    | ok settings =>
      have hu : Inv (w.setUrl settings.URL) := inv_frame w _ rfl rfl rfl (Nat.le_refl _) h
      cases ho : env.HTTPClientOptions ctx with
      | error err =>
        rw [getApi_optionsError env w ctx project location settings err hapi hs ho]
        exact hu
      | ok opts =>
        cases hh : env.httpclientNew w.httpClients
            { ForwardHTTPHeaders := true, Header := opts.Header ++ [("Accept-Encoding", "")] } with
        | some err =>
          rw [getApi_transportError env w ctx project location settings opts err hapi hs ho hh]
          exact inv_frame w _ rfl rfl rfl (Nat.le_refl _) h
        | none =>
          cases hf : w.ds.bqFactory w.factoryCalls project w.httpClients settings.URL with
          | error err =>
            rw [getApi_factoryError env w ctx project location settings opts err hapi hs ho
              hh hf]
            exact inv_frame w _ rfl rfl rfl (Nat.le_refl _) h
          | ok s =>
            rw [getApi_created env w ctx project location settings opts s hapi hs ho hh hf]
            exact inv_catalogued w _ _ s location h hapi

theorem inv_fresh (w : World) (h : w.fresh) : Inv w := by
  obtain ⟨hc, ha, hs⟩ := h
  refine ⟨?_, ?_, ?_⟩
  · intro k s hk; rw [hs] at hk; cases hk
  · intro k c hk; rw [hc] at hk; cases hk
  · intro k a hk; rw [ha] at hk; cases hk

theorem inv_reachable (w : World) (h : Reachable w) : Inv w := by
  induction h with
  | init w hf => exact inv_fresh w hf
  | step w w' _ hstep ih =>
    cases hstep
    · exact inv_Connect _ _ _ _ ih
    · exact inv_getApi _ _ _ _ _ ih
    · exact inv_markClosed _ _ ih

/-! ## The two caches along a run -/

/-- C1: in every state a sequential run of `Connect`, `getApi` and driver closings reaches
from empty caches, all sessions ever stored under one key, in either cache, are the same
one; every cached connection is on that record, its key is also held by the catalog-API
cache and its driver wraps the session of that catalog client. -/
theorem one_session_per_key (w : World) (h : Reachable w) :
    (∀ k s1 s2, (k, s1) ∈ w.stored → (k, s2) ∈ w.stored → s1 = s2) ∧
    (∀ k c, Load k w.ds.connections = some c →
      (k, c.driver.client) ∈ w.stored ∧
      ∃ a, Load k w.ds.apiClients = some a ∧ c.driver.client = a.Client) ∧
    (∀ k a, Load k w.ds.apiClients = some a → (k, a.Client) ∈ w.stored) := by
  obtain ⟨h1, h2, h3⟩ := inv_reachable w h
  refine ⟨?_, ?_, h3⟩
  · intro k s1 s2 m1 m2
    obtain ⟨a1, e1, r1⟩ := h1 k s1 m1
    obtain ⟨a2, e2, r2⟩ := h1 k s2 m2
    rw [e1] at e2
    cases e2
    rw [← r1, ← r2]
  · intro k c hc
    obtain ⟨a, e, r⟩ := h1 k _ (h2 k c hc).2
    exact ⟨(h2 k c hc).2, a, e, r.symm⟩

theorem one_session_per_key_witness :
    Reachable (markClosed "1/US:A" connectedWorld) ∧
    ((∀ k s1 s2, (k, s1) ∈ (markClosed "1/US:A" connectedWorld).stored →
        (k, s2) ∈ (markClosed "1/US:A" connectedWorld).stored → s1 = s2) ∧
      (∀ k c, Load k (markClosed "1/US:A" connectedWorld).ds.connections = some c →
        (k, c.driver.client) ∈ (markClosed "1/US:A" connectedWorld).stored ∧
        ∃ a, Load k (markClosed "1/US:A" connectedWorld).ds.apiClients = some a ∧
          c.driver.client = a.Client) ∧
      (∀ k a, Load k (markClosed "1/US:A" connectedWorld).ds.apiClients = some a →
        (k, a.Client) ∈ (markClosed "1/US:A" connectedWorld).stored)) :=
  have hr : Reachable (markClosed "1/US:A" connectedWorld) :=
    Reachable.step _ _
      (Reachable.step _ _ (Reachable.init _ ⟨rfl, rfl, rfl⟩) (Step.connect demoEnv _ _ _))
      (Step.close _ _)
  ⟨hr, one_session_per_key _ hr⟩

/-- C2: when the query-execution cache holds, under the derived key, a connection whose
driver is not closed, and settings, connection arguments and HTTP options load, `Connect`
returns the cached handle; the factory is not invoked, no transport client or driver is
requested, both caches and the transport registry are unchanged; and any further `Connect`
deriving the same key returns the same handle. -/
theorem connect_returns_cached_handle (env : Env) (w : World) (config : Config)
    (queryArgs : Option String) (settings : BigQuerySettings) (args : ConnectionArgs)
    (opts : HttpOptions) (c : conn)
    (hs : env.loadSettings config = .ok settings)
    (ha : parseConnectionArgs env queryArgs = .ok args)
    (ho : env.HTTPClientOptions config = .ok opts)
    (hc : Load (Connect.key env config settings args) w.ds.connections = some c)
    (hopen : c.driver.closed = false) :
    (Connect env w config queryArgs).1 = .ok c.db ∧
    (Connect env w config queryArgs).2.factoryCalls = w.factoryCalls ∧
    (Connect env w config queryArgs).2.httpClients = w.httpClients ∧
    (Connect env w config queryArgs).2.opened = w.opened ∧
    (Connect env w config queryArgs).2.stored = w.stored ∧
    (Connect env w config queryArgs).2.ds.connections = w.ds.connections ∧
    (Connect env w config queryArgs).2.ds.apiClients = w.ds.apiClients ∧
    (Connect env w config queryArgs).2.ds.httpClientService = w.ds.httpClientService ∧
    (∀ (config2 : Config) (queryArgs2 : Option String) (settings2 : BigQuerySettings)
        (args2 : ConnectionArgs) (opts2 : HttpOptions),
      env.loadSettings config2 = .ok settings2 →
      parseConnectionArgs env queryArgs2 = .ok args2 →
      env.HTTPClientOptions config2 = .ok opts2 →
      Connect.key env config2 settings2 args2 = Connect.key env config settings args →
      (Connect env (Connect env w config queryArgs).2 config2 queryArgs2).1 = .ok c.db) := by
  have h1 := Connect_fast env w config queryArgs settings args opts c hs ha ho hc hopen
  rw [h1]
  refine ⟨rfl, rfl, rfl, rfl, rfl, rfl, rfl, rfl, ?_⟩
  intro config2 queryArgs2 settings2 args2 opts2 hs2 ha2 ho2 hk
  have hc2 : Load (Connect.key env config2 settings2 args2)
      (w.setUrl settings.URL).ds.connections = some c := by
    rw [hk]; exact hc
  rw [Connect_fast env _ config2 queryArgs2 settings2 args2 opts2 c hs2 ha2 ho2 hc2 hopen]

theorem connect_returns_cached_handle_witness :
    (demoEnv.loadSettings (demoConfig "A")
        = .ok { URL := "https://bq/", DefaultProject := "A", ProcessingLocation := "US" } ∧
      Load "1/US:A" connectedWorld.ds.connections
        = some { db := 0, driver := { client := 100, closed := false } }) ∧
    (Connect demoEnv connectedWorld (demoConfig "A") none).1 = .ok 0 ∧
    (Connect demoEnv connectedWorld (demoConfig "A") none).2.factoryCalls = 1 :=
  have h := connect_returns_cached_handle demoEnv connectedWorld (demoConfig "A") none
    { URL := "https://bq/", DefaultProject := "A", ProcessingLocation := "US" }
    { Dataset := "", Table := "", Location := "", Headers := [] }
    { ForwardHTTPHeaders := false, Header := [] }
    { db := 0, driver := { client := 100, closed := false } } rfl rfl rfl (by decide) rfl
  ⟨⟨rfl, by decide⟩, h.1, h.2.1⟩

/-! ## Reconnecting on the catalog client's session -/

theorem Connect_reuse (env : Env) (w : World) (config : Config) (queryArgs : Option String)
    (settings : BigQuerySettings) (args : ConnectionArgs) (opts : HttpOptions) (aC : API)
    (hs : env.loadSettings config = .ok settings)
    (ha : parseConnectionArgs env queryArgs = .ok args)
    (ho : env.HTTPClientOptions config = .ok opts)
    (hapi : Load (Connect.key env config settings args) w.ds.apiClients = some aC)
    (hconn : ∀ c, Load (Connect.key env config settings args) w.ds.connections = some c →
      c.driver.closed = true) :
    (Connect env w config queryArgs).2.factoryCalls = w.factoryCalls ∧
    (env.driverOpenError w.opened (env.getConnectionSettings settings args true) aC.Client
        = none →
      Load (Connect.key env config settings args)
          (Connect env w config queryArgs).2.ds.connections
        = some { db := w.opened, driver := { client := aC.Client, closed := false } } ∧
      ((Load (instanceKey config.ID) w.ds.httpClientService ≠ none ∨
          env.httpclientNew w.httpClients opts = none) →
        (Connect env w config queryArgs).1 = .ok w.opened)) := by
  rw [Connect_slow env w config queryArgs settings args opts hs ha ho hconn]
  have hapi' : Load (Connect.key env config settings args)
      (w.setUrl settings.URL).ds.apiClients = some aC := hapi
  cases hd : env.driverOpenError w.opened (env.getConnectionSettings settings args true)
      aC.Client with
  | some err =>
    rw [create_reuse_openError env (w.setUrl settings.URL) config settings _ _ opts aC err
      hapi' hd]
    exact ⟨rfl, fun h => by cases h⟩
  | none =>
    cases hreg : Load (instanceKey config.ID) w.ds.httpClientService with
    | some client =>
      rw [create_reuse_registered env (w.setUrl settings.URL) config settings _ _ opts aC
        client hapi' hd hreg]
      exact ⟨rfl, fun _ => ⟨Load_Store_self _ _ _, fun _ => rfl⟩⟩
    | none =>
      cases hh : env.httpclientNew w.httpClients opts with
      | some err =>
        rw [create_reuse_transportError env (w.setUrl settings.URL) config settings _ _ opts
          aC err hapi' hd hreg hh]
        refine ⟨rfl, fun _ => ⟨Load_Store_self _ _ _, fun h => ?_⟩⟩
        rcases h with h | h
        · exact absurd rfl h
        · cases h
      | none =>
        rw [create_reuse_transportBuilt env (w.setUrl settings.URL) config settings _ _ opts
          aC hapi' hd hreg hh]
        exact ⟨rfl, fun _ => ⟨Load_Store_self _ _ _, fun _ => rfl⟩⟩

/-- C3 (as stated, refuted): with a catalog client cached and no connection cached, a
`Connect` that cannot build the instance's transport client stores the new connection and
returns an error instead of it, and one whose `driver.Open` fails stores and returns
nothing. -/
theorem connect_on_catalog_session_can_fail :
    Load "1/US:A" catalogOnlyWorld.ds.apiClients = some { Client := 100, location := "US" } ∧
    Load "1/US:A" catalogOnlyWorld.ds.connections = none ∧
    (Connect noTransportEnv catalogOnlyWorld (demoConfig "A") none).1
      = .error (.withMessage (.new "no transport") "Failed to create http client") ∧
    Load "1/US:A" (Connect noTransportEnv catalogOnlyWorld (demoConfig "A") none).2.ds.connections
      = some { db := 0, driver := { client := 100, closed := false } } ∧
    (Connect noDriverEnv catalogOnlyWorld (demoConfig "A") none).1
      = .error (.withMessage (.new "no driver") "Failed to connect to database") ∧
    Load "1/US:A" (Connect noDriverEnv catalogOnlyWorld (demoConfig "A") none).2.ds.connections
      = none := by
  decide

/-- C3 (amended): when the catalog-API cache holds a client under the derived key and the
query-execution cache holds no open connection there, a `Connect` whose settings, arguments
and HTTP options load never invokes the factory; if `driver.Open` succeeds it stores under
the key a new open connection on the catalog client's session, and it returns that
connection's handle if moreover the instance's transport client is registered or can be
built. -/
theorem connect_on_catalog_session (env : Env) (w : World) (config : Config)
    (queryArgs : Option String) (settings : BigQuerySettings) (args : ConnectionArgs)
    (opts : HttpOptions) (aC : API)
    (hs : env.loadSettings config = .ok settings)
    (ha : parseConnectionArgs env queryArgs = .ok args)
    (ho : env.HTTPClientOptions config = .ok opts)
    (hapi : Load (Connect.key env config settings args) w.ds.apiClients = some aC)
    (hconn : ∀ c, Load (Connect.key env config settings args) w.ds.connections = some c →
      c.driver.closed = true) :
    (Connect env w config queryArgs).2.factoryCalls = w.factoryCalls ∧
    (env.driverOpenError w.opened (env.getConnectionSettings settings args true) aC.Client
        = none →
      Load (Connect.key env config settings args)
          (Connect env w config queryArgs).2.ds.connections
        = some { db := w.opened, driver := { client := aC.Client, closed := false } } ∧
      ((Load (instanceKey config.ID) w.ds.httpClientService ≠ none ∨
          env.httpclientNew w.httpClients opts = none) →
        (Connect env w config queryArgs).1 = .ok w.opened)) :=
  Connect_reuse env w config queryArgs settings args opts aC hs ha ho hapi hconn

theorem connect_on_catalog_session_witness :
    (Load "1/US:A" catalogOnlyWorld.ds.apiClients = some { Client := 100, location := "US" } ∧
      Load "1/US:A" catalogOnlyWorld.ds.connections = none) ∧
    (Connect demoEnv catalogOnlyWorld (demoConfig "A") none).2.factoryCalls = 1 ∧
    (Connect demoEnv catalogOnlyWorld (demoConfig "A") none).1 = .ok 0 :=
  have h := connect_on_catalog_session demoEnv catalogOnlyWorld (demoConfig "A") none
    { URL := "https://bq/", DefaultProject := "A", ProcessingLocation := "US" }
    { Dataset := "", Table := "", Location := "", Headers := [] }
    { ForwardHTTPHeaders := false, Header := [] } { Client := 100, location := "US" }
    rfl rfl rfl (by decide)
    (fun c hc => Option.noConfusion
      ((show Load "1/US:A" catalogOnlyWorld.ds.connections = none by decide).symm.trans hc))
  ⟨⟨by decide, by decide⟩, h.1, (h.2 rfl).2 (Or.inr rfl)⟩

/-! ## What a successful `Connect` leaves behind -/

theorem create_new_ok_inv (env : Env) (w : World) (config : Config)
    (settings : BigQuerySettings) (cs : ConnectionSettings) (key : String)
    (opts : HttpOptions) (h : Handle)
    (hapi : Load key w.ds.apiClients = none)
    (hr : (Connect.create env w config settings cs key opts).1 = .ok h) :
    h = w.opened ∧ ∃ s,
      w.ds.bqFactory w.factoryCalls cs.Project w.httpClients settings.URL = .ok s ∧
      Connect.create env w config settings cs key opts
        = (.ok w.opened, w.created config.ID key s cs.Location) := by
  cases hh : env.httpclientNew w.httpClients opts with
  | some err =>
    rw [create_new_transportError env w config settings cs key opts err hapi hh] at hr
    cases hr
  | none =>
    cases hf : w.ds.bqFactory w.factoryCalls cs.Project w.httpClients settings.URL with
    | error err =>
      rw [create_new_factoryError env w config settings cs key opts err hapi hh hf] at hr
      cases hr
    | ok s =>
      cases hd : env.driverOpenError w.opened cs s with
      | some err =>
        rw [create_new_openError env w config settings cs key opts s err hapi hh hf hd] at hr
        cases hr
      | none =>
        have e := create_new_ok env w config settings cs key opts s hapi hh hf hd
        rw [e] at hr
        cases hr
        exact ⟨rfl, s, rfl, e⟩

theorem create_ok_cached (env : Env) (w : World) (config : Config)
    (settings : BigQuerySettings) (cs : ConnectionSettings) (key : String)
    (opts : HttpOptions) (h : Handle)
    (hr : (Connect.create env w config settings cs key opts).1 = .ok h) :
    ∃ s, Load key (Connect.create env w config settings cs key opts).2.ds.connections
      = some { db := h, driver := { client := s, closed := false } } := by
  cases hapi : Load key w.ds.apiClients with
  | none =>
    obtain ⟨rfl, s, -, e⟩ := create_new_ok_inv env w config settings cs key opts h hapi hr
    rw [e]
    refine ⟨s, ?_⟩
    show Load key (w.created config.ID key s cs.Location).ds.connections = _
    rw [(created_fields w config.ID key s cs.Location).1]
    exact Load_Store_self _ _ _
  | some aC =>
    cases hd : env.driverOpenError w.opened cs aC.Client with
    | some err =>
      rw [create_reuse_openError env w config settings cs key opts aC err hapi hd] at hr
      cases hr
    | none =>
      cases hreg : Load (instanceKey config.ID) w.ds.httpClientService with
      | some client =>
        have e := create_reuse_registered env w config settings cs key opts aC client hapi hd
          hreg
        rw [e] at hr ⊢
        cases hr
        exact ⟨aC.Client, Load_Store_self _ _ _⟩
      | none =>
        cases hh : env.httpclientNew w.httpClients opts with
        | some err =>
          rw [create_reuse_transportError env w config settings cs key opts aC err hapi hd
            hreg hh] at hr
          cases hr
        | none =>
          have e := create_reuse_transportBuilt env w config settings cs key opts aC hapi hd
            hreg hh
          rw [e] at hr ⊢
          cases hr
          exact ⟨aC.Client, Load_Store_self _ _ _⟩

theorem Connect_ok_cached (env : Env) (w : World) (config : Config)
    (queryArgs : Option String) (settings : BigQuerySettings) (args : ConnectionArgs)
    (opts : HttpOptions) (h : Handle)
    (hs : env.loadSettings config = .ok settings)
    (ha : parseConnectionArgs env queryArgs = .ok args)
    (ho : env.HTTPClientOptions config = .ok opts)
    (hr : (Connect env w config queryArgs).1 = .ok h) :
    ∃ s, Load (Connect.key env config settings args)
        (Connect env w config queryArgs).2.ds.connections
      = some { db := h, driver := { client := s, closed := false } } := by
  by_cases hc : ∀ c, Load (Connect.key env config settings args) w.ds.connections
      = some c → c.driver.closed = true
  · have e := Connect_slow env w config queryArgs settings args opts hs ha ho hc
    rw [e] at hr ⊢
    exact create_ok_cached env _ config settings _ _ opts h hr
  · push_neg at hc
    obtain ⟨c, hc1, hc2⟩ := hc
    have hopen : c.driver.closed = false := by simpa using hc2
    have e := Connect_fast env w config queryArgs settings args opts c hs ha ho hc1 hopen
    rw [e] at hr ⊢
    cases hr
    refine ⟨c.driver.client, ?_⟩
    show Load (Connect.key env config settings args) w.ds.connections = _
    rw [hc1]
    obtain ⟨db, ⟨cl, closed⟩⟩ := c
    simp only at hopen
    subst hopen
    rfl

/-- C4 (as stated, refuted): after a successful `Connect` whose connection is then closed,
the next `Connect` with the same key returns a new handle although the factory is not
invoked again: its invocation count is still 1. -/
theorem reconnect_does_not_call_factory :
    (Connect demoEnv (emptyWorld countingFactory) (demoConfig "A") none).1 = .ok 0 ∧
    connectedWorld.factoryCalls = 1 ∧
    (Connect demoEnv (markClosed "1/US:A" connectedWorld) (demoConfig "A") none).1 = .ok 1 ∧
    (Connect demoEnv (markClosed "1/US:A" connectedWorld) (demoConfig "A")
      none).2.factoryCalls = 1 := by
  decide

/-- C4 (amended): in a state reached from empty caches, after a successful `Connect` whose
cached connection is then marked closed, the next `Connect` with the same arguments does not
invoke the factory; if `driver.Open` succeeds it stores a new open connection on the
session of the catalog client cached under the key, with a handle different from the stale
one, and it returns that new handle if moreover the instance's transport client is
registered or can be built. -/
theorem reconnect_after_close (env : Env) (w : World) (config : Config)
    (queryArgs : Option String) (settings : BigQuerySettings) (args : ConnectionArgs)
    (opts : HttpOptions) (h : Handle)
    (hw : Reachable w)
    (hs : env.loadSettings config = .ok settings)
    (ha : parseConnectionArgs env queryArgs = .ok args)
    (ho : env.HTTPClientOptions config = .ok opts)
    (hr : (Connect env w config queryArgs).1 = .ok h) :
    ∃ aC, Load (Connect.key env config settings args)
        (Connect env w config queryArgs).2.ds.apiClients = some aC ∧
      (Connect env (markClosed (Connect.key env config settings args)
          (Connect env w config queryArgs).2) config queryArgs).2.factoryCalls
        = (Connect env w config queryArgs).2.factoryCalls ∧
      (env.driverOpenError (Connect env w config queryArgs).2.opened
          (env.getConnectionSettings settings args true) aC.Client = none →
        (Connect env w config queryArgs).2.opened ≠ h ∧
        Load (Connect.key env config settings args)
            (Connect env (markClosed (Connect.key env config settings args)
              (Connect env w config queryArgs).2) config queryArgs).2.ds.connections
          = some { db := (Connect env w config queryArgs).2.opened,
                   driver := { client := aC.Client, closed := false } } ∧
        ((Load (instanceKey config.ID) (Connect env w config queryArgs).2.ds.httpClientService
              ≠ none ∨
            env.httpclientNew (Connect env w config queryArgs).2.httpClients opts = none) →
          (Connect env (markClosed (Connect.key env config settings args)
              (Connect env w config queryArgs).2) config queryArgs).1
            = .ok (Connect env w config queryArgs).2.opened)) := by
  obtain ⟨s, hc⟩ := Connect_ok_cached env w config queryArgs settings args opts h hs ha ho hr
  generalize hw1 : (Connect env w config queryArgs).2 = w1 at hc ⊢
  have hinv : Inv w1 := by
    rw [← hw1]
    exact inv_Connect env w config queryArgs (inv_reachable w hw)
  obtain ⟨h1, h2, -⟩ := hinv
  obtain ⟨hlt, hst⟩ := h2 _ _ hc
  obtain ⟨aC, hapi, -⟩ := h1 _ _ hst
  have hclosed : ∀ c, Load (Connect.key env config settings args)
      (markClosed (Connect.key env config settings args) w1).ds.connections = some c →
      c.driver.closed = true := by
    intro c hcc
    simp only [markClosed] at hcc
    rw [Load_map_close, hc] at hcc
    simp only [Option.map_some', if_true, Option.some.injEq] at hcc
    rw [← hcc]
    rfl
  have hre := Connect_reuse env (markClosed (Connect.key env config settings args) w1) config
    queryArgs settings args opts aC hs ha ho hapi hclosed
  refine ⟨aC, hapi, hre.1, fun hd => ?_⟩
  obtain ⟨hstore, hret⟩ := hre.2 hd
  have hlt' : h < w1.opened := hlt
  exact ⟨fun e => absurd hlt' (by rw [e]; exact lt_irrefl _), hstore, hret⟩

theorem reconnect_after_close_witness :
    (Reachable (emptyWorld countingFactory) ∧
      (Connect demoEnv (emptyWorld countingFactory) (demoConfig "A") none).1 = .ok 0) ∧
    ∃ aC, Load "1/US:A" connectedWorld.ds.apiClients = some aC ∧
      (Connect demoEnv (markClosed "1/US:A" connectedWorld) (demoConfig "A")
        none).2.factoryCalls = 1 :=
  have hw : Reachable (emptyWorld countingFactory) :=
    Reachable.init _ ⟨rfl, rfl, rfl⟩
  have h := reconnect_after_close demoEnv (emptyWorld countingFactory) (demoConfig "A") none
    { URL := "https://bq/", DefaultProject := "A", ProcessingLocation := "US" }
    { Dataset := "", Table := "", Location := "", Headers := [] }
    { ForwardHTTPHeaders := false, Header := [] } 0 hw rfl rfl rfl (by decide)
  ⟨⟨hw, by decide⟩, h.elim fun aC haC => ⟨aC, haC.1, haC.2.1⟩⟩

/-! ## Two projects -/

theorem connectionKey_project_ne (i : Int) (l p1 p2 : String) (h : p1 ≠ p2) :
    connectionKey i l p1 ≠ connectionKey i l p2 := by
  intro e
  obtain ⟨-, hr⟩ := connectionKey_instance _ _ _ _ _ _ e
  have := List.append_cancel_left hr
  simp only [List.cons.injEq, true_and] at this
  exact h (String.ext this)

theorem create_bqFactory (env : Env) (w : World) (config : Config)
    (settings : BigQuerySettings) (cs : ConnectionSettings) (key : String)
    (opts : HttpOptions) :
    (Connect.create env w config settings cs key opts).2.ds.bqFactory = w.ds.bqFactory := by
  cases hapi : Load key w.ds.apiClients with
  | some aC =>
    cases hd : env.driverOpenError w.opened cs aC.Client with
    | some err =>
      rw [create_reuse_openError env w config settings cs key opts aC err hapi hd]
    | none =>
      cases hreg : Load (instanceKey config.ID) w.ds.httpClientService with
      | some client =>
        rw [create_reuse_registered env w config settings cs key opts aC client hapi hd hreg]
        rfl
      | none =>
        cases hh : env.httpclientNew w.httpClients opts with
        | some err =>
          rw [create_reuse_transportError env w config settings cs key opts aC err hapi hd
            hreg hh]
          rfl
        | none =>
          rw [create_reuse_transportBuilt env w config settings cs key opts aC hapi hd hreg hh]
          rfl
  | none =>
    cases hh : env.httpclientNew w.httpClients opts with
    | some err =>
      rw [create_new_transportError env w config settings cs key opts err hapi hh]
    | none =>
      cases hf : w.ds.bqFactory w.factoryCalls cs.Project w.httpClients settings.URL with
      | error err =>
        rw [create_new_factoryError env w config settings cs key opts err hapi hh hf]
      | ok s =>
        cases hd : env.driverOpenError w.opened cs s with
        | some err =>
          rw [create_new_openError env w config settings cs key opts s err hapi hh hf hd]
        | none =>
          rw [create_new_ok env w config settings cs key opts s hapi hh hf hd]
          exact (created_fields w config.ID key s cs.Location).2.2.2.2.2.2.1

theorem Connect_bqFactory (env : Env) (w : World) (config : Config)
    (queryArgs : Option String) :
    (Connect env w config queryArgs).2.ds.bqFactory = w.ds.bqFactory := by
  cases hs : env.loadSettings config with
  | error err => simp only [Connect, hs]
  | ok settings =>
    cases ha : parseConnectionArgs env queryArgs with
    | error err => simp only [Connect, hs, ha]; rfl
    | ok args =>
      cases ho : env.HTTPClientOptions config with
      | error err => simp only [Connect, hs, ha, ho]; rfl
      | ok opts =>
        by_cases hc : ∀ c, Load (Connect.key env config settings args) w.ds.connections
            = some c → c.driver.closed = true
        · rw [Connect_slow env w config queryArgs settings args opts hs ha ho hc]
          exact create_bqFactory env _ config settings _ _ opts
        · push_neg at hc
          obtain ⟨c, hc1, hc2⟩ := hc
          rw [Connect_fast env w config queryArgs settings args opts c hs ha ho hc1
            (by simpa using hc2)]
          rfl

theorem NewDatasource_factory (env : Env) (settings : Config) (w0 : World)
    (h : NewDatasource env settings = .ok w0) :
    ∃ bqClient, w0.ds.bqFactory = fun _ _ _ _ => .ok bqClient := by
  unfold NewDatasource at h
  split at h
  · cases h
  · split at h
    · cases h
    · dsimp only at h
      split at h
      · cases h
      · split at h
        · cases h
        · rename_i bqClient _
          split at h
          · cases h
          · rename_i r w1 heq
            cases h
            have e := congrArg (fun p => p.2.ds.bqFactory) heq
            simp only [Connect_bqFactory] at e
            exact ⟨bqClient, e.symm⟩

/-- C5 (as stated, refuted): with the factory `NewDatasource` installs, `Connect` for
project "A" and then for project "B" caches two connections under two keys, and both
connections wrap the one session 7 the installed factory returns for every project. This
is so on the datasource as `NewDatasource` leaves it, where the connection for "A" is
already cached and the factory has been invoked twice after the two calls, and also when
the two calls start from empty caches. -/
theorem installed_factory_shares_session :
    (match NewDatasource demoEnv (demoConfig "A") with
      | .ok _ => true
      | .error _ => false) = true ∧
    Load "1/US:A" (Connect demoEnv (Connect demoEnv installedWorld (demoConfig "A") none).2
        (demoConfig "B") none).2.ds.connections
      = some { db := 0, driver := { client := 7, closed := false } } ∧
    Load "1/US:B" (Connect demoEnv (Connect demoEnv installedWorld (demoConfig "A") none).2
        (demoConfig "B") none).2.ds.connections
      = some { db := 1, driver := { client := 7, closed := false } } ∧
    (Connect demoEnv (Connect demoEnv installedWorld (demoConfig "A") none).2
      (demoConfig "B") none).2.factoryCalls = 2 ∧
    installedEmptyWorld.ds.connections = [] ∧ installedEmptyWorld.ds.apiClients = [] ∧
    Load "1/US:A" (Connect demoEnv (Connect demoEnv installedEmptyWorld (demoConfig "A")
        none).2 (demoConfig "B") none).2.ds.connections
      = some { db := 0, driver := { client := 7, closed := false } } ∧
    Load "1/US:B" (Connect demoEnv (Connect demoEnv installedEmptyWorld (demoConfig "A")
        none).2 (demoConfig "B") none).2.ds.connections
      = some { db := 1, driver := { client := 7, closed := false } } ∧
    (Connect demoEnv (Connect demoEnv installedEmptyWorld (demoConfig "A") none).2
      (demoConfig "B") none).2.factoryCalls = 2 := by
  decide

/-- C5 (amended): from empty caches, two successful `Connect` calls for the same instance
and location and two different projects store two connections under two different keys,
with two different handles; the first wraps the session the factory returned at its first
invocation, for the first project, the second the session it returned at its next
invocation, for the second project. The two sessions are the factory's two results, and
with the factory `NewDatasource` installs they are the same session. -/
theorem connect_two_projects (env : Env) (w : World) (config1 config2 : Config)
    (queryArgs1 queryArgs2 : Option String) (settings1 settings2 : BigQuerySettings)
    (args1 args2 : ConnectionArgs) (opts1 opts2 : HttpOptions) (h1 h2 : Handle)
    (hw : w.fresh)
    (hs1 : env.loadSettings config1 = .ok settings1)
    (ha1 : parseConnectionArgs env queryArgs1 = .ok args1)
    (ho1 : env.HTTPClientOptions config1 = .ok opts1)
    (hs2 : env.loadSettings config2 = .ok settings2)
    (ha2 : parseConnectionArgs env queryArgs2 = .ok args2)
    (ho2 : env.HTTPClientOptions config2 = .ok opts2)
    (hid : config1.ID = config2.ID)
    (hloc : (env.getConnectionSettings settings1 args1 true).Location
      = (env.getConnectionSettings settings2 args2 true).Location)
    (hproj : (env.getConnectionSettings settings1 args1 true).Project
      ≠ (env.getConnectionSettings settings2 args2 true).Project)
    (hr1 : (Connect env w config1 queryArgs1).1 = .ok h1)
    (hr2 : (Connect env (Connect env w config1 queryArgs1).2 config2 queryArgs2).1 = .ok h2) :
    Connect.key env config1 settings1 args1 ≠ Connect.key env config2 settings2 args2 ∧
    h1 ≠ h2 ∧
    ∃ s1 s2,
      w.ds.bqFactory w.factoryCalls (env.getConnectionSettings settings1 args1 true).Project
        w.httpClients settings1.URL = .ok s1 ∧
      w.ds.bqFactory (w.factoryCalls + 1)
        (env.getConnectionSettings settings2 args2 true).Project (w.httpClients + 1)
        settings2.URL = .ok s2 ∧
      Load (Connect.key env config1 settings1 args1)
          (Connect env (Connect env w config1 queryArgs1).2 config2 queryArgs2).2.ds.connections
        = some { db := h1, driver := { client := s1, closed := false } } ∧
      Load (Connect.key env config2 settings2 args2)
          (Connect env (Connect env w config1 queryArgs1).2 config2 queryArgs2).2.ds.connections
        = some { db := h2, driver := { client := s2, closed := false } } ∧
      (∀ (settings0 : Config) (w0 : World), NewDatasource env settings0 = .ok w0 →
        w.ds.bqFactory = w0.ds.bqFactory → s1 = s2) := by
  obtain ⟨hwc, hwa, -⟩ := hw
  have hkey : Connect.key env config1 settings1 args1 ≠ Connect.key env config2 settings2 args2 := by
    unfold Connect.key
    rw [hid, hloc]
    exact connectionKey_project_ne _ _ _ _ hproj
  -- the first call
  have hc1 : ∀ c, Load (Connect.key env config1 settings1 args1) w.ds.connections = some c →
      c.driver.closed = true := by
    intro c hc; rw [hwc] at hc; cases hc
  have e1 := Connect_slow env w config1 queryArgs1 settings1 args1 opts1 hs1 ha1 ho1 hc1
  rw [e1] at hr1
  have hapi1 : Load (Connect.key env config1 settings1 args1)
      (w.setUrl settings1.URL).ds.apiClients = none := by
    show Load _ w.ds.apiClients = none
    rw [hwa]; rfl
  obtain ⟨rfl, s1, hf1, c1⟩ := create_new_ok_inv env _ config1 settings1 _ _ opts1 h1 hapi1 hr1
  rw [e1, c1] at hr2 ⊢
  simp only at hr2 ⊢
  generalize hW1 : (w.setUrl settings1.URL).created config1.ID
    (Connect.key env config1 settings1 args1) s1
    (env.getConnectionSettings settings1 args1 true).Location = W1 at hr2 ⊢
  obtain ⟨fc, fa, -, fo, ff, fh, fb, -⟩ := created_fields (w.setUrl settings1.URL) config1.ID
    (Connect.key env config1 settings1 args1) s1
    (env.getConnectionSettings settings1 args1 true).Location
  rw [hW1] at fc fa fo ff fh fb
  -- the second call
  have hc2 : ∀ c, Load (Connect.key env config2 settings2 args2) W1.ds.connections = some c →
      c.driver.closed = true := by
    intro c hc
    rw [fc, Load_Store_ne _ _ _ _ (Ne.symm hkey)] at hc
    change Load _ w.ds.connections = _ at hc
    rw [hwc] at hc; cases hc
  have e2 := Connect_slow env W1 config2 queryArgs2 settings2 args2 opts2 hs2 ha2 ho2 hc2
  rw [e2] at hr2 ⊢
  have hapi2 : Load (Connect.key env config2 settings2 args2)
      (W1.setUrl settings2.URL).ds.apiClients = none := by
    show Load _ W1.ds.apiClients = none
    rw [fa, Load_Store_ne _ _ _ _ (Ne.symm hkey)]
    change Load _ w.ds.apiClients = _
    rw [hwa]; rfl
  obtain ⟨rfl, s2, hf2, c2⟩ := create_new_ok_inv env _ config2 settings2 _ _ opts2 h2 hapi2 hr2
  rw [c2]
  obtain ⟨gc, -⟩ := created_fields (W1.setUrl settings2.URL) config2.ID
    (Connect.key env config2 settings2 args2) s2
    (env.getConnectionSettings settings2 args2 true).Location
  have hf2' : w.ds.bqFactory (w.factoryCalls + 1)
      (env.getConnectionSettings settings2 args2 true).Project (w.httpClients + 1)
      settings2.URL = .ok s2 := by
    have : W1.ds.bqFactory W1.factoryCalls
        (env.getConnectionSettings settings2 args2 true).Project W1.httpClients
        settings2.URL = .ok s2 := hf2
    rw [fb, ff, fh] at this
    exact this
  refine ⟨hkey, ?_, s1, s2, hf1, hf2', ?_, ?_, ?_⟩
  · show w.opened ≠ W1.opened
    rw [fo]
    show w.opened ≠ w.opened + 1
    omega
  · show Load _ ((W1.setUrl settings2.URL).created _ _ _ _).ds.connections = _
    rw [gc, Load_Store_ne _ _ _ _ hkey]
    show Load _ W1.ds.connections = _
    rw [fc, Load_Store_self]
  · show Load _ ((W1.setUrl settings2.URL).created _ _ _ _).ds.connections = _
    rw [gc, Load_Store_self]
  · intro settings0 w0 hn hb
    obtain ⟨bqClient, hq⟩ := NewDatasource_factory env settings0 w0 hn
    have hf1' : w.ds.bqFactory w.factoryCalls
        (env.getConnectionSettings settings1 args1 true).Project w.httpClients
        settings1.URL = .ok s1 := hf1
    rw [hb, hq] at hf1' hf2'
    cases hf1'
    cases hf2'
    rfl

theorem connect_two_projects_witness :
    ((emptyWorld countingFactory).fresh ∧
      (Connect demoEnv (emptyWorld countingFactory) (demoConfig "A") none).1 = .ok 0 ∧
      (Connect demoEnv connectedWorld (demoConfig "B") none).1 = .ok 1) ∧
    connectionKey 1 "US" "A" ≠ connectionKey 1 "US" "B" ∧ (0 : Handle) ≠ 1 :=
  have h := connect_two_projects demoEnv (emptyWorld countingFactory) (demoConfig "A")
    (demoConfig "B") none none
    { URL := "https://bq/", DefaultProject := "A", ProcessingLocation := "US" }
    { URL := "https://bq/", DefaultProject := "B", ProcessingLocation := "US" }
    { Dataset := "", Table := "", Location := "", Headers := [] }
    { Dataset := "", Table := "", Location := "", Headers := [] }
    { ForwardHTTPHeaders := false, Header := [] } { ForwardHTTPHeaders := false, Header := [] }
    0 1 ⟨rfl, rfl, rfl⟩ rfl rfl rfl rfl rfl rfl rfl rfl (by decide) (by decide) (by decide)
  ⟨⟨⟨rfl, rfl, rfl⟩, by decide, by decide⟩, h.1, h.2.1⟩

/-! ## The catalog path -/

/-- C7 (as stated, refuted): after one `Connect` from empty caches, with no catalog lookup
before it, `getApi` for the same key returns a client on session 100, the session the
factory gave to `Connect` and the cached connection wraps, and the factory's invocation
count stays 1. -/
theorem getApi_returns_query_session :
    (Connect demoEnv (emptyWorld countingFactory) (demoConfig "A") none).1 = .ok 0 ∧
    Load "1/US:A" connectedWorld.ds.connections
      = some { db := 0, driver := { client := 100, closed := false } } ∧
    connectedWorld.factoryCalls = 1 ∧
    (getApi demoEnv connectedWorld (demoConfig "A") "A" "US").1
      = .ok { Client := 100, location := "US" } ∧
    (getApi demoEnv connectedWorld (demoConfig "A") "A" "US").2.factoryCalls = 1 := by
  decide

theorem getApi_frame (env : Env) (w : World) (ctx : Config) (project location : String)
    (connections : List (String × conn)) :
    getApi env (w.withConnections connections) ctx project location
      = ((getApi env w ctx project location).1,
         (getApi env w ctx project location).2.withConnections connections) := by
  cases hapi : Load (getApi.key ctx project location) w.ds.apiClients with
  | some a =>
    rw [getApi_hit env w ctx project location a hapi,
      getApi_hit env (w.withConnections connections) ctx project location a hapi]
  | none =>
    have hapi' : Load (getApi.key ctx project location)
        (w.withConnections connections).ds.apiClients = none := hapi
    cases hs : env.loadSettings ctx with
    | error err =>
      rw [getApi_settingsError env w ctx project location err hapi hs,
        getApi_settingsError env _ ctx project location err hapi' hs]
    | ok settings =>
      cases ho : env.HTTPClientOptions ctx with
      | error err =>
        rw [getApi_optionsError env w ctx project location settings err hapi hs ho,
          getApi_optionsError env _ ctx project location settings err hapi' hs ho]
        rfl
      | ok opts =>
        cases hh : env.httpclientNew w.httpClients
            { ForwardHTTPHeaders := true, Header := opts.Header ++ [("Accept-Encoding", "")] } with
        | some err =>
          rw [getApi_transportError env w ctx project location settings opts err hapi hs ho hh,
            getApi_transportError env _ ctx project location settings opts err hapi' hs ho hh]
          rfl
        | none =>
          cases hf : w.ds.bqFactory w.factoryCalls project w.httpClients settings.URL with
          | error err =>
            rw [getApi_factoryError env w ctx project location settings opts err hapi hs ho
                hh hf,
              getApi_factoryError env _ ctx project location settings opts err hapi' hs ho
                hh hf]
            rfl
          | ok s =>
            rw [getApi_created env w ctx project location settings opts s hapi hs ho hh hf,
              getApi_created env _ ctx project location settings opts s hapi' hs ho hh hf]
            rfl

/-- C7 (amended): `getApi` decides on the catalog-API cache alone and never reads or writes
the query-execution cache: run on any other content of that cache it returns the same
result and leaves the same state, with that other content untouched. If the catalog-API
cache holds a client under the key, whoever stored it, `getApi` returns it and changes
nothing, so the factory is not invoked. If it holds none, `getApi` returns the settings
error with the state unchanged, or the options error with only the url assigned, or the
wrapped transport error with no factory invocation, or, the transport client built, it
invokes the factory once and returns the wrapped factory error with nothing stored or
stores the new client under the key and returns it. After a successful `Connect` in a
state reached from empty caches the catalog-API cache holds the key, so `getApi` for that
key returns the client on the session of the cached connection. -/
theorem getApi_decides_on_catalog_cache (env : Env) (w : World) :
    (∀ (ctx : Config) (project location : String) (connections : List (String × conn)),
      getApi env (w.withConnections connections) ctx project location
        = ((getApi env w ctx project location).1,
           (getApi env w ctx project location).2.withConnections connections)) ∧
    (∀ (ctx : Config) (project location : String) (a : API),
      Load (getApi.key ctx project location) w.ds.apiClients = some a →
      getApi env w ctx project location = (.ok a, w)) ∧
    (∀ (ctx : Config) (project location : String),
      Load (getApi.key ctx project location) w.ds.apiClients = none →
      (∀ err, env.loadSettings ctx = .error err →
        getApi env w ctx project location = (.error err, w)) ∧
      (∀ settings, env.loadSettings ctx = .ok settings →
        (∀ err, env.HTTPClientOptions ctx = .error err →
          getApi env w ctx project location = (.error err, w.setUrl settings.URL)) ∧
        (∀ opts, env.HTTPClientOptions ctx = .ok opts →
          (∀ err, env.httpclientNew w.httpClients
              { ForwardHTTPHeaders := true,
                Header := opts.Header ++ [("Accept-Encoding", "")] } = some err →
            getApi env w ctx project location
              = (.error (.withMessage err "Failed to crate http client"),
                  { w.setUrl settings.URL with httpClients := w.httpClients + 1 })) ∧
          (env.httpclientNew w.httpClients
              { ForwardHTTPHeaders := true,
                Header := opts.Header ++ [("Accept-Encoding", "")] } = none →
            (getApi env w ctx project location).2.factoryCalls = w.factoryCalls + 1 ∧
            (∀ err, w.ds.bqFactory w.factoryCalls project w.httpClients settings.URL
                = .error err →
              getApi env w ctx project location
                = (.error (.withMessage err "Failed to initialize BigQuery client"),
                    { w.setUrl settings.URL with httpClients := w.httpClients + 1,
                                                  factoryCalls := w.factoryCalls + 1 })) ∧
            (∀ s, w.ds.bqFactory w.factoryCalls project w.httpClients settings.URL = .ok s →
              getApi env w ctx project location
                = (.ok (apiNew s location),
                    w.catalogued settings.URL (getApi.key ctx project location) s location) ∧
              Load (getApi.key ctx project location)
                  (getApi env w ctx project location).2.ds.apiClients
                = some (apiNew s location) ∧
              (getApi env w ctx project location).2.ds.connections
                = w.ds.connections))))) ∧
    (∀ (config : Config) (queryArgs : Option String) (settings : BigQuerySettings)
        (args : ConnectionArgs) (opts : HttpOptions) (h : Handle),
      Reachable w →
      env.loadSettings config = .ok settings →
      parseConnectionArgs env queryArgs = .ok args →
      env.HTTPClientOptions config = .ok opts →
      (Connect env w config queryArgs).1 = .ok h →
      ∃ a, Load (Connect.key env config settings args)
            (Connect env w config queryArgs).2.ds.connections
          = some { db := h, driver := { client := a.Client, closed := false } } ∧
        getApi env (Connect env w config queryArgs).2 config
            (env.getConnectionSettings settings args true).Project
            (env.getConnectionSettings settings args true).Location
          = (.ok a, (Connect env w config queryArgs).2)) := by
  refine ⟨?_, ?_, ?_, ?_⟩
  · intro ctx project location connections
    exact getApi_frame env w ctx project location connections
  · intro ctx project location a hapi
    exact getApi_hit env w ctx project location a hapi
  · intro ctx project location hapi
    refine ⟨fun err hs => getApi_settingsError env w ctx project location err hapi hs,
      fun settings hs => ⟨fun err ho =>
        getApi_optionsError env w ctx project location settings err hapi hs ho,
      fun opts ho => ⟨fun err hh =>
        getApi_transportError env w ctx project location settings opts err hapi hs ho hh,
      fun hh => ?_⟩⟩⟩
    refine ⟨?_, fun err hf =>
        getApi_factoryError env w ctx project location settings opts err hapi hs ho hh hf,
      fun s hf => ?_⟩
    · cases hf : w.ds.bqFactory w.factoryCalls project w.httpClients settings.URL with
      | error err =>
        rw [getApi_factoryError env w ctx project location settings opts err hapi hs ho hh hf]
      | ok s =>
        rw [getApi_created env w ctx project location settings opts s hapi hs ho hh hf]
        rfl
    · have e := getApi_created env w ctx project location settings opts s hapi hs ho hh hf
      rw [e]
      exact ⟨rfl, Load_Store_self _ _ _, rfl⟩
  · intro config queryArgs settings args opts h hw hs ha ho hr
    obtain ⟨s, hc⟩ := Connect_ok_cached env w config queryArgs settings args opts h hs ha ho hr
    obtain ⟨h1, h2, -⟩ := inv_Connect env w config queryArgs (inv_reachable w hw)
    obtain ⟨a, hapi, hcl⟩ := h1 _ _ (h2 _ _ hc).2
    have hcl' : a.Client = s := hcl
    refine ⟨a, ?_, getApi_hit env _ config _ _ a hapi⟩
    rw [hcl']
    exact hc

theorem getApi_decides_on_catalog_cache_witness :
    (Reachable (emptyWorld countingFactory) ∧
      (Connect demoEnv (emptyWorld countingFactory) (demoConfig "A") none).1 = .ok 0) ∧
    (∃ a, Load "1/US:A" connectedWorld.ds.connections
          = some { db := 0, driver := { client := a.Client, closed := false } } ∧
      getApi demoEnv connectedWorld (demoConfig "A") "A" "US" = (.ok a, connectedWorld)) ∧
    (Load "1/EU:B" connectedWorld.ds.apiClients = none ∧
      noTransportEnv.loadSettings (demoConfig "B")
        = .ok { URL := "https://bq/", DefaultProject := "B", ProcessingLocation := "US" } ∧
      noTransportEnv.httpclientNew connectedWorld.httpClients
          { ForwardHTTPHeaders := true, Header := [] ++ [("Accept-Encoding", "")] }
        = some (.new "no transport")) ∧
    getApi noTransportEnv connectedWorld (demoConfig "B") "B" "EU"
      = (.error (.withMessage (.new "no transport") "Failed to crate http client"),
          { connectedWorld.setUrl "https://bq/" with
            httpClients := connectedWorld.httpClients + 1 }) :=
  have hw : Reachable (emptyWorld countingFactory) :=
    Reachable.init _ ⟨rfl, rfl, rfl⟩
  have hmiss : Load "1/EU:B" connectedWorld.ds.apiClients = none := by decide
  ⟨⟨hw, by decide⟩,
    (getApi_decides_on_catalog_cache demoEnv (emptyWorld countingFactory)).2.2.2
      (demoConfig "A") none
      { URL := "https://bq/", DefaultProject := "A", ProcessingLocation := "US" }
      { Dataset := "", Table := "", Location := "", Headers := [] }
      { ForwardHTTPHeaders := false, Header := [] } 0 hw rfl rfl rfl (by decide),
    ⟨hmiss, rfl, rfl⟩,
    ((((getApi_decides_on_catalog_cache noTransportEnv connectedWorld).2.2.1
      (demoConfig "B") "B" "EU" hmiss).2
      { URL := "https://bq/", DefaultProject := "B", ProcessingLocation := "US" } rfl).2
      { ForwardHTTPHeaders := false, Header := [] } rfl).1 (.new "no transport") rfl⟩

/-! ## `Columns` with a malformed flag -/

theorem ParseBool_error (str : String) (h : ∀ b, ParseBool str ≠ .ok b) :
    ParseBool str = .error (.numError "ParseBool" str "invalid syntax") := by
  unfold ParseBool at h ⊢
  split
  · rename_i h1
    rw [if_pos h1] at h
    exact absurd rfl (h true)
  · rename_i h1
    rw [if_neg h1] at h
    split
    · rename_i h2
      rw [if_pos h2] at h
      exact absurd rfl (h false)
    · rfl

/-- C9 (as stated, refuted): with the three names given and a malformed flag, `Columns` on
empty caches first creates the catalog client: a transport client is built, the factory is
invoked and the client is cached; and when the factory fails the error returned is the
client-creation error, not the parse error. -/
theorem columns_creates_client_before_parsing :
    (Columns demoEnv (emptyWorld countingFactory) (demoConfig "A") badFlagOptions).1
      = .error (.withMessage (.numError "ParseBool" "notabool" "invalid syntax")
          "Failed to parse isOrderable") ∧
    (Columns demoEnv (emptyWorld countingFactory) (demoConfig "A")
      badFlagOptions).2.factoryCalls = 1 ∧
    (Columns demoEnv (emptyWorld countingFactory) (demoConfig "A")
      badFlagOptions).2.httpClients = 1 ∧
    Load "1/:A" (Columns demoEnv (emptyWorld countingFactory) (demoConfig "A")
      badFlagOptions).2.ds.apiClients = some { Client := 100, location := "" } ∧
    (Columns demoEnv (emptyWorld failingFactory) (demoConfig "A") badFlagOptions).1
      = .error (.withMessage
          (.withMessage (.new "no credentials") "Failed to initialize BigQuery client")
          "Failed to retrieve BigQuery API client") := by
  decide

/-- C9 (amended): a `Columns` call with project, dataset and table given and a flag that is
not a valid boolean first looks the catalog client up, and its effect on the state is that
of this `getApi` call; if the lookup fails the call fails with the wrapped lookup error, and
if it succeeds the call fails with the `isOrderable` parse error. When the catalog-API cache
already holds the client, nothing is built, invoked or stored. -/
theorem columns_bad_flag (env : Env) (w : World) (ctx : Config) (options : Options)
    (hp : options.get "project" ≠ "") (hd : options.get "dataset" ≠ "")
    (ht : options.get "table" ≠ "")
    (hbad : ∀ b, ParseBool (options.get "isOrderable") ≠ .ok b) :
    (Columns env w ctx options).2
      = (getApi env w ctx (options.get "project") (options.get "location")).2 ∧
    (∀ a, (getApi env w ctx (options.get "project") (options.get "location")).1 = .ok a →
      (Columns env w ctx options).1
        = .error (.withMessage
            (.numError "ParseBool" (options.get "isOrderable") "invalid syntax")
            "Failed to parse isOrderable")) ∧
    (∀ err, (getApi env w ctx (options.get "project") (options.get "location")).1
        = .error err →
      (Columns env w ctx options).1
        = .error (.withMessage err "Failed to retrieve BigQuery API client")) ∧
    (∀ a, Load (getApi.key ctx (options.get "project") (options.get "location"))
        w.ds.apiClients = some a →
      Columns env w ctx options
        = (.error (.withMessage
            (.numError "ParseBool" (options.get "isOrderable") "invalid syntax")
            "Failed to parse isOrderable"), w)) := by
  have hcond : ¬ (options.get "project" = "" ∨ options.get "dataset" = ""
      ∨ options.get "table" = "") := by
    rintro (h | h | h)
    · exact hp h
    · exact hd h
    · exact ht h
  have hpb := ParseBool_error _ hbad
  have key : ∀ r w', getApi env w ctx (options.get "project") (options.get "location")
      = (r, w') →
      Columns env w ctx options = (match r with
        | .error err => .error (.withMessage err "Failed to retrieve BigQuery API client")
        | .ok _ => .error (.withMessage
            (.numError "ParseBool" (options.get "isOrderable") "invalid syntax")
            "Failed to parse isOrderable"), w') := by
    intro r w' e
    simp only [Columns, if_neg hcond, e]
    cases r with
    | error err => rfl
    | ok a => simp only [hpb]
  have e := key (getApi env w ctx (options.get "project") (options.get "location")).1
    (getApi env w ctx (options.get "project") (options.get "location")).2 rfl
  refine ⟨?_, ?_, ?_, ?_⟩
  · rw [e]
  · intro a ha
    rw [e, ha]
  · intro err he
    rw [e, he]
  · intro a ha
    rw [key _ _ (getApi_hit env w ctx _ _ a ha)]

theorem columns_bad_flag_witness :
    (Options.get badFlagOptions "project" ≠ "" ∧ Options.get badFlagOptions "dataset" ≠ "" ∧
      Options.get badFlagOptions "table" ≠ "" ∧
      ∀ b, ParseBool (Options.get badFlagOptions "isOrderable") ≠ .ok b) ∧
    (Columns demoEnv connectedWorld (demoConfig "A") badFlagOptions).2
      = (getApi demoEnv connectedWorld (demoConfig "A") (Options.get badFlagOptions "project")
          (Options.get badFlagOptions "location")).2 :=
  have hb : ∀ b, ParseBool (Options.get badFlagOptions "isOrderable") ≠ .ok b := by decide
  ⟨⟨by decide, by decide, by decide, hb⟩,
    (columns_bad_flag demoEnv connectedWorld (demoConfig "A") badFlagOptions (by decide)
      (by decide) (by decide) hb).1⟩

/-! ## `ValidateQuery` when interpolation fails -/

theorem interpolation_message_ne_empty (msg : String) : "Could not apply macros: " ++ msg ≠ "" := by
  intro h
  have := congrArg String.length h
  simp only [String.length_append] at this
  have h0 : "Could not apply macros: ".length = 24 := by decide
  have h1 : "".length = 0 := by decide
  rw [h0, h1] at this
  omega

/-- C10 (as stated, refuted): on empty caches with a factory that fails, `ValidateQuery` of
a query whose interpolation fails returns the raw client-creation error and no result. -/
theorem validateQuery_raw_error :
    demoEnv.Interpolate "" = .error "missing macro" ∧
    (ValidateQuery demoEnv (emptyWorld failingFactory) (demoConfig "A")
        { Project := "A", Location := "US", Query := "" }).1
      = .error (.withMessage
          (.withMessage (.new "no credentials") "Failed to initialize BigQuery client")
          "Failed to retrieve BigQuery API client") := by
  decide

/-- C10 (amended): for a query whose macro interpolation fails, `ValidateQuery` returns,
whenever the catalog client lookup succeeds, no error and the result with `IsValid` false,
`IsError` true and the non-empty message "Could not apply macros: " followed by the
interpolation error text; this is so in particular when the catalog-API cache already holds
the client. When the lookup fails, the wrapped lookup error is returned instead. -/
theorem validateQuery_interpolation_failure (env : Env) (w : World) (ctx : Config)
    (options : ValidateQueryArgs) (msg : String)
    (hi : env.Interpolate options.Query = .error msg) :
    (∀ a w', getApi env w ctx options.Project options.Location = (.ok a, w') →
      ValidateQuery env w ctx options
        = (.ok { IsValid := false, IsError := true,
                 Error := "Could not apply macros: " ++ msg }, w')) ∧
    "Could not apply macros: " ++ msg ≠ "" ∧
    (∀ a, Load (getApi.key ctx options.Project options.Location) w.ds.apiClients = some a →
      ValidateQuery env w ctx options
        = (.ok { IsValid := false, IsError := true,
                 Error := "Could not apply macros: " ++ msg }, w)) ∧
    (∀ err w', getApi env w ctx options.Project options.Location = (.error err, w') →
      ValidateQuery env w ctx options
        = (.error (.withMessage err "Failed to retrieve BigQuery API client"), w')) := by
  refine ⟨?_, interpolation_message_ne_empty msg, ?_, ?_⟩
  · intro a w' e
    simp only [ValidateQuery, e, hi]
  · intro a ha
    simp only [ValidateQuery, getApi_hit env w ctx _ _ a ha, hi]
  · intro err w' e
    simp only [ValidateQuery, e]

theorem validateQuery_interpolation_failure_witness :
    demoEnv.Interpolate "" = .error "missing macro" ∧
    ("Could not apply macros: " ++ "missing macro" ≠ "") :=
  ⟨rfl, (validateQuery_interpolation_failure demoEnv connectedWorld (demoConfig "A")
    { Project := "A", Location := "US", Query := "" } "missing macro" rfl).2.1⟩

end BigQuery
